import Mathlib

/-!
# vaultmp: session handles and type tags of the GameFactory

A shallow embedding of `source/GameFactory.h`:

* the tag constants `ID_*` / `ALL_*` (lines 44-58), as 32-bit unsigned values;
* `FactoryWrapper<Reference>` (lines 287-363): the two data members, every
  constructor, both assignment operators, the destructor and the accessors;
* the nine classes produced by `GF_TYPE_WRAPPER` (lines 365-405);
* `vaultcast` (lines 409-423);
* the three blocking specialisations of `GameFactory::OperateFunctions`
  (lines 254-285);

and of `source/vaultscript/vaultscript.h`: the enum `vaultmp::Type` (lines
63-80) and the wrapper classes `Reference`, `Object`, `Item`, `Container`,
`Actor`, `Player`, `Window`, `Button`, `Text` and `Edit` (lines 895-1354), as
far as their ids, types and window queries go.

Pointers to entities are natural numbers (addresses), a null pointer is
`Option.none`.  Handle objects live in a store indexed by their own address, so
that the test `this != &p` of the assignment operators can be expressed.
-/

namespace Vaultmp

/-! ## Tag constants (GameFactory.h 44-58) -/

/-- Left shift on `unsigned int` (32 bits). -/
def shl32 (x k : Nat) : Nat := (x <<< k) % 4294967296

def ID_REFERENCE : Nat := 0x01
def ID_OBJECT : Nat := shl32 ID_REFERENCE 1
def ID_ITEM : Nat := shl32 ID_OBJECT 1
def ID_CONTAINER : Nat := shl32 ID_ITEM 1
def ID_ACTOR : Nat := shl32 ID_CONTAINER 1
def ID_PLAYER : Nat := shl32 ID_ACTOR 1
def ID_WINDOW : Nat := shl32 ID_PLAYER 1
def ID_BUTTON : Nat := shl32 ID_WINDOW 1
def ID_TEXT : Nat := shl32 ID_BUTTON 1
def ID_EDIT : Nat := shl32 ID_TEXT 1

def ALL_OBJECTS : Nat := ID_OBJECT ||| ID_ITEM ||| ID_CONTAINER ||| ID_ACTOR ||| ID_PLAYER
def ALL_CONTAINERS : Nat := ID_CONTAINER ||| ID_ACTOR ||| ID_PLAYER
def ALL_ACTORS : Nat := ID_ACTOR ||| ID_PLAYER
def ALL_WINDOWS : Nat := ID_WINDOW ||| ID_BUTTON ||| ID_TEXT ||| ID_EDIT

/-! ## The classes declared by GF_TYPE_WRAPPER (GameFactory.h 397-405) -/

/-- The nine `derived` arguments of the `GF_TYPE_WRAPPER` instantiations. -/
inductive Derived
  | Object | Item | Container | Actor | Player | Window | Button | Text | Edit
  deriving DecidableEq, Repr

/-- The `token` argument of each `GF_TYPE_WRAPPER(derived, base, token)`. -/
def Derived.token : Derived → Nat
  | .Object => ALL_OBJECTS
  | .Item => ID_ITEM
  | .Container => ID_CONTAINER
  | .Actor => ALL_ACTORS
  | .Player => ID_PLAYER
  | .Window => ALL_WINDOWS
  | .Button => ID_BUTTON
  | .Text => ID_TEXT
  | .Edit => ID_EDIT

/-- The `base` argument of each `GF_TYPE_WRAPPER(derived, base, token)`;
`none` stands for `Reference`. -/
def Derived.base : Derived → Option Derived
  | .Object => none
  | .Item => some .Object
  | .Container => some .Object
  | .Actor => some .Container
  | .Player => some .Actor
  | .Window => none
  | .Button => some .Window
  | .Text => some .Window
  | .Edit => some .Window

/-- The concrete tag constant `ID_<derived>` of each class. -/
def Derived.id : Derived → Nat
  | .Object => ID_OBJECT
  | .Item => ID_ITEM
  | .Container => ID_CONTAINER
  | .Actor => ID_ACTOR
  | .Player => ID_PLAYER
  | .Window => ID_WINDOW
  | .Button => ID_BUTTON
  | .Text => ID_TEXT
  | .Edit => ID_EDIT

/-! ## FactoryWrapper<Reference> (GameFactory.h 287-363) -/

/-- The data members of `FactoryWrapper<Reference>`: `Reference* reference`
(`none` is `nullptr`) and `unsigned int type`.  The classes generated by
`GF_TYPE_WRAPPER` add no member, so this is the state of every handle.  The tag
is only copied and combined with `&`, which cannot leave the 32-bit range. -/
structure FactoryWrapper where
  reference : Option Nat
  type : Nat
  deriving DecidableEq, Repr

/-- The in-use counter of every entity, by entity address. -/
abbrev Sessions := Nat → Int

/-- Modelled from the spec: `Reference::StartSession()`, declared in
`Reference.h`, which is not part of the sources at hand.  The spec (4.3) says
that starting a session increments the in-use counter of the entity; the
constructor stores the returned pointer, which is the entity itself. -/
def StartSession (s : Sessions) (reference : Nat) : Sessions × Option Nat :=
  (fun e => if e = reference then s e + 1 else s e, some reference)

/-- Modelled from the spec: `Reference::EndSession()`, declared in
`Reference.h`, which is not part of the sources at hand.  The spec (4.3) says
that ending a session decrements the in-use counter of the entity. -/
def EndSession (s : Sessions) (reference : Nat) : Sessions :=
  fun e => if e = reference then s e - 1 else s e

namespace FactoryWrapper

/-- `unsigned int GetType() const` (line 354). -/
def GetType (self : FactoryWrapper) : Nat := self.type

/-- `explicit operator bool() const` (line 357). -/
def toBool (self : FactoryWrapper) : Bool := self.reference.isSome

/-- `validate<derived>(unsigned int type) const` (line 366):
`return type ? (type & token) : (this->type & token);`, converted to `bool`.
The declaration (line 362) gives `type` the default argument `0x00000000`. -/
def validate (self : FactoryWrapper) (derived : Derived) (type : Nat) : Bool :=
  if type ≠ 0 then decide ((type &&& derived.token) ≠ 0)
  else decide ((self.type &&& derived.token) ≠ 0)

/-- `FactoryWrapper(Reference* reference, unsigned int type)` (line 300):
`reference(reinterpret_cast<Reference*>(reference->StartSession())), type(type)`.
The argument is dereferenced, hence an entity address and not a null pointer. -/
def ctor (s : Sessions) (reference : Nat) (type : Nat) : Sessions × FactoryWrapper :=
  let r := StartSession s reference
  (r.1, { reference := r.2, type := type })

/-- `FactoryWrapper(const FactoryWrapper& p)` (lines 302-306). -/
def copyCtor (s : Sessions) (p : FactoryWrapper) : Sessions × FactoryWrapper :=
  let self : FactoryWrapper := { reference := p.reference, type := p.type }
  match self.reference with
  | some r => ((StartSession s r).1, self)
  | none => (s, self)

/-- `FactoryWrapper& operator=(const FactoryWrapper& p)` (lines 307-322).
`this` and `addrP` are the addresses of the two objects; the result is the new
counters and the new value of `*this` (`p` is `const`). -/
def copyAssign (s : Sessions) (this : Nat) (self : FactoryWrapper) (addrP : Nat)
    (p : FactoryWrapper) : Sessions × FactoryWrapper :=
  if this ≠ addrP then
    let s1 := match self.reference with
      | some r => EndSession s r
      | none => s
    let self1 : FactoryWrapper := { reference := p.reference, type := p.type }
    let s2 := match self1.reference with
      | some r => (StartSession s1 r).1
      | none => s1
    (s2, self1)
  else (s, self)

/-- `FactoryWrapper(FactoryWrapper&& p)` (lines 324-328): the result is the new
object and the new value of `p`. -/
def moveCtor (p : FactoryWrapper) : FactoryWrapper × FactoryWrapper :=
  ({ reference := p.reference, type := p.type }, { reference := none, type := 0x00000000 })

/-- `FactoryWrapper& operator=(FactoryWrapper&& p)` (lines 329-344): the result
is the new counters, the new value of `*this` and the new value of `p`. -/
def moveAssign (s : Sessions) (this : Nat) (self : FactoryWrapper) (addrP : Nat)
    (p : FactoryWrapper) : Sessions × FactoryWrapper × FactoryWrapper :=
  if this ≠ addrP then
    let s1 := match self.reference with
      | some r => EndSession s r
      | none => s
    (s1, { reference := p.reference, type := p.type }, { reference := none, type := 0x00000000 })
  else (s, self, p)

/-- `FactoryWrapper()` (line 346). -/
def defaultCtor : FactoryWrapper := { reference := none, type := 0x00000000 }

/-- `~FactoryWrapper()` (lines 347-351). -/
def dtor (s : Sessions) (self : FactoryWrapper) : Sessions :=
  match self.reference with
  | some r => EndSession s r
  | none => s

end FactoryWrapper

/-! ## The constructor generated by GF_TYPE_WRAPPER (GameFactory.h 375-379) -/

/-- The body of the generated constructor, lines 376-379:
`if (!validate<derived>()) reference = nullptr;`.
Inside the constructor the name `reference` is the constructor parameter
`Reference* reference` (the data member of that name is private to
`FactoryWrapper<Reference>`), so the body acts on the pair of the object under
construction and the parameter, and it is the parameter that is assigned. -/
def GF_TYPE_WRAPPER.ctorBody (derived : Derived) (self : FactoryWrapper)
    (reference : Option Nat) : FactoryWrapper × Option Nat :=
  if !(self.validate derived 0x00000000) then (self, none) else (self, reference)

/-- The generated constructor
`FactoryWrapper(Reference* reference, unsigned int type) : FactoryWrapper<base>(reference, type)`
followed by its body; `baseCtor` is the constructor of `FactoryWrapper<base>`. -/
def GF_TYPE_WRAPPER.ctor (derived : Derived)
    (baseCtor : Sessions → Nat → Nat → Sessions × FactoryWrapper)
    (s : Sessions) (reference : Nat) (type : Nat) : Sessions × FactoryWrapper :=
  let r := baseCtor s reference type
  (r.1, (GF_TYPE_WRAPPER.ctorBody derived r.2 (some reference)).1)

def FactoryObject.ctor := GF_TYPE_WRAPPER.ctor .Object FactoryWrapper.ctor
def FactoryItem.ctor := GF_TYPE_WRAPPER.ctor .Item FactoryObject.ctor
def FactoryContainer.ctor := GF_TYPE_WRAPPER.ctor .Container FactoryObject.ctor
def FactoryActor.ctor := GF_TYPE_WRAPPER.ctor .Actor FactoryContainer.ctor
def FactoryPlayer.ctor := GF_TYPE_WRAPPER.ctor .Player FactoryActor.ctor
def FactoryWindow.ctor := GF_TYPE_WRAPPER.ctor .Window FactoryWrapper.ctor
def FactoryButton.ctor := GF_TYPE_WRAPPER.ctor .Button FactoryWindow.ctor
def FactoryText.ctor := GF_TYPE_WRAPPER.ctor .Text FactoryWindow.ctor
def FactoryEdit.ctor := GF_TYPE_WRAPPER.ctor .Edit FactoryWindow.ctor

/-- The constructor `FactoryWrapper<derived>(Reference*, unsigned int)` of each
generated class. -/
def Derived.ctor : Derived → Sessions → Nat → Nat → Sessions × FactoryWrapper
  | .Object => FactoryObject.ctor
  | .Item => FactoryItem.ctor
  | .Container => FactoryContainer.ctor
  | .Actor => FactoryActor.ctor
  | .Player => FactoryPlayer.ctor
  | .Window => FactoryWindow.ctor
  | .Button => FactoryButton.ctor
  | .Text => FactoryText.ctor
  | .Edit => FactoryEdit.ctor

/-- The constructor `FactoryWrapper<T>(Reference*, unsigned int)` used by the
registry; `none` is `T = Reference`, `some d` a generated class. -/
def registryCtor : Option Derived → Sessions → Nat → Nat → Sessions × FactoryWrapper
  | none => FactoryWrapper.ctor
  | some d => d.ctor

/-! ## The copying constructors generated by GF_TYPE_WRAPPER (GameFactory.h 380, 385) -/

/-- The converting constructor
`template<typename T> FactoryWrapper(const FactoryWrapper<T>& p) : FactoryWrapper<base>(p) {}`
(line 380) and the copy constructor
`FactoryWrapper(const FactoryWrapper& p) : FactoryWrapper<base>(p) {}` (line 385):
the base class is initialised from `p` and the body is empty; `baseCopy` is
the constructor of `FactoryWrapper<base>` that receives `p`. -/
def GF_TYPE_WRAPPER.copyCtor (baseCopy : Sessions → FactoryWrapper → Sessions × FactoryWrapper)
    (s : Sessions) (p : FactoryWrapper) : Sessions × FactoryWrapper :=
  baseCopy s p

def FactoryObject.copyCtor := GF_TYPE_WRAPPER.copyCtor FactoryWrapper.copyCtor
def FactoryItem.copyCtor := GF_TYPE_WRAPPER.copyCtor FactoryObject.copyCtor
def FactoryContainer.copyCtor := GF_TYPE_WRAPPER.copyCtor FactoryObject.copyCtor
def FactoryActor.copyCtor := GF_TYPE_WRAPPER.copyCtor FactoryContainer.copyCtor
def FactoryPlayer.copyCtor := GF_TYPE_WRAPPER.copyCtor FactoryActor.copyCtor
def FactoryWindow.copyCtor := GF_TYPE_WRAPPER.copyCtor FactoryWrapper.copyCtor
def FactoryButton.copyCtor := GF_TYPE_WRAPPER.copyCtor FactoryWindow.copyCtor
def FactoryText.copyCtor := GF_TYPE_WRAPPER.copyCtor FactoryWindow.copyCtor
def FactoryEdit.copyCtor := GF_TYPE_WRAPPER.copyCtor FactoryWindow.copyCtor

/-- The constructor of `FactoryWrapper<derived>` from a handle of any class. -/
def Derived.copyCtor : Derived → Sessions → FactoryWrapper → Sessions × FactoryWrapper
  | .Object => FactoryObject.copyCtor
  | .Item => FactoryItem.copyCtor
  | .Container => FactoryContainer.copyCtor
  | .Actor => FactoryActor.copyCtor
  | .Player => FactoryPlayer.copyCtor
  | .Window => FactoryWindow.copyCtor
  | .Button => FactoryButton.copyCtor
  | .Text => FactoryText.copyCtor
  | .Edit => FactoryEdit.copyCtor

/-! ## The move constructor generated by GF_TYPE_WRAPPER (GameFactory.h 387) -/

/-- `FactoryWrapper(FactoryWrapper&& p)` of `FactoryWrapper<Reference>` (lines
324-328) as the initialisation of a base class: the counters, which it does not
touch, the new object and the new value of `p`. -/
def FactoryWrapper.moveInit (s : Sessions) (p : FactoryWrapper) :
    Sessions × FactoryWrapper × FactoryWrapper :=
  let m := FactoryWrapper.moveCtor p
  (s, m.1, m.2)

/-- The constructor template of line 380 of a generated class `base`, selected
for the argument `std::move(p)` of line 387 when `p` is a handle of a class
derived from `base`: the template instantiated with the class of `p` binds the
argument without a conversion and is preferred to the copy and the move
constructor of `base`, which both need a derived-to-base conversion.  The
parameter is a reference to const, so `p` is read and not changed;
`baseCopy` is that constructor of `base`. -/
def GF_TYPE_WRAPPER.fromDerived (baseCopy : Sessions → FactoryWrapper → Sessions × FactoryWrapper)
    (s : Sessions) (p : FactoryWrapper) : Sessions × FactoryWrapper × FactoryWrapper :=
  let c := baseCopy s p
  (c.1, c.2, p)

/-- The move constructor of line 387,
`FactoryWrapper(FactoryWrapper&& p) : FactoryWrapper<base>(std::move(p)) {}`:
the base class is initialised from the rvalue and the body is empty;
`baseInit` is the constructor of `FactoryWrapper<base>` selected for the
argument.  The result is the counters, the new object and the new value of
`p`. -/
def GF_TYPE_WRAPPER.moveCtor
    (baseInit : Sessions → FactoryWrapper → Sessions × FactoryWrapper × FactoryWrapper)
    (s : Sessions) (p : FactoryWrapper) : Sessions × FactoryWrapper × FactoryWrapper :=
  baseInit s p

/-- `Object` has the base `Reference`, which has no constructor template: the
move constructor of lines 324-328 is selected. -/
def FactoryObject.moveCtor := GF_TYPE_WRAPPER.moveCtor FactoryWrapper.moveInit
def FactoryItem.moveCtor :=
  GF_TYPE_WRAPPER.moveCtor (GF_TYPE_WRAPPER.fromDerived FactoryObject.copyCtor)
def FactoryContainer.moveCtor :=
  GF_TYPE_WRAPPER.moveCtor (GF_TYPE_WRAPPER.fromDerived FactoryObject.copyCtor)
def FactoryActor.moveCtor :=
  GF_TYPE_WRAPPER.moveCtor (GF_TYPE_WRAPPER.fromDerived FactoryContainer.copyCtor)
def FactoryPlayer.moveCtor :=
  GF_TYPE_WRAPPER.moveCtor (GF_TYPE_WRAPPER.fromDerived FactoryActor.copyCtor)
/-- `Window` has the base `Reference`, as `Object` has. -/
def FactoryWindow.moveCtor := GF_TYPE_WRAPPER.moveCtor FactoryWrapper.moveInit
def FactoryButton.moveCtor :=
  GF_TYPE_WRAPPER.moveCtor (GF_TYPE_WRAPPER.fromDerived FactoryWindow.copyCtor)
def FactoryText.moveCtor :=
  GF_TYPE_WRAPPER.moveCtor (GF_TYPE_WRAPPER.fromDerived FactoryWindow.copyCtor)
def FactoryEdit.moveCtor :=
  GF_TYPE_WRAPPER.moveCtor (GF_TYPE_WRAPPER.fromDerived FactoryWindow.copyCtor)

/-- The move constructor of `FactoryWrapper<derived>`. -/
def Derived.moveCtor : Derived → Sessions → FactoryWrapper →
    Sessions × FactoryWrapper × FactoryWrapper
  | .Object => FactoryObject.moveCtor
  | .Item => FactoryItem.moveCtor
  | .Container => FactoryContainer.moveCtor
  | .Actor => FactoryActor.moveCtor
  | .Player => FactoryPlayer.moveCtor
  | .Window => FactoryWindow.moveCtor
  | .Button => FactoryButton.moveCtor
  | .Text => FactoryText.moveCtor
  | .Edit => FactoryEdit.moveCtor

/-- The move constructor of `FactoryWrapper<T>`; `none` is `T = Reference`,
`some d` a generated class. -/
def classMoveCtor : Option Derived → Sessions → FactoryWrapper →
    Sessions × FactoryWrapper × FactoryWrapper
  | none => FactoryWrapper.moveInit
  | some d => d.moveCtor

/-- Whether the base class of `FactoryWrapper<T>` is `FactoryWrapper<Reference>`
or `T` is `Reference` itself. -/
def basedOnReference : Option Derived → Bool
  | none => true
  | some d => d.base.isNone

/-! ## Handle objects in memory -/

/-- The counters of all entities together with the handle objects, indexed by
the address of the object; `none` marks an address whose object has been
destroyed. -/
structure World where
  sessions : Sessions
  objects : List (Option FactoryWrapper)

/-- No handle exists and every in-use counter is 0. -/
def World.empty : World := { sessions := fun _ => 0, objects := [] }

/-- The live handle object at address `a`, if any. -/
def World.handle (w : World) (a : Nat) : Option FactoryWrapper := w.objects.getD a none

/-- The operations on handle objects.  A constructor creates its object at the
next free address, `w.objects.length`.  A move construction names the class of
the object constructed, `none` for `Reference`, since the move constructor
selected depends on it. -/
inductive Op
  | construct (kind : Option Derived) (reference : Nat) (type : Nat)
  | defaultConstruct
  | copyConstruct (p : Nat)
  | moveConstruct (kind : Option Derived) (p : Nat)
  | copyAssign (this : Nat) (p : Nat)
  | moveAssign (this : Nat) (p : Nat)
  | destroy (this : Nat)
  deriving DecidableEq, Repr

/-- One operation.  The result is `none` when an operand is not a live object
(such a call is not a well-formed use of the class). -/
def World.step (w : World) : Op → Option World
  | .construct kind reference type =>
    let r := registryCtor kind w.sessions reference type
    some { sessions := r.1, objects := w.objects ++ [some r.2] }
  | .defaultConstruct =>
    some { sessions := w.sessions, objects := w.objects ++ [some FactoryWrapper.defaultCtor] }
  | .copyConstruct p =>
    match w.handle p with
    | some hp =>
      let r := FactoryWrapper.copyCtor w.sessions hp
      some { sessions := r.1, objects := w.objects ++ [some r.2] }
    | none => none
  | .moveConstruct kind p =>
    match w.handle p with
    | some hp =>
      let r := classMoveCtor kind w.sessions hp
      some { sessions := r.1, objects := w.objects.set p (some r.2.2) ++ [some r.2.1] }
    | none => none
  | .copyAssign this p =>
    match w.handle this, w.handle p with
    | some self, some hp =>
      let r := FactoryWrapper.copyAssign w.sessions this self p hp
      some { sessions := r.1, objects := w.objects.set this (some r.2) }
    | _, _ => none
  | .moveAssign this p =>
    match w.handle this, w.handle p with
    | some self, some hp =>
      let r := FactoryWrapper.moveAssign w.sessions this self p hp
      some { sessions := r.1, objects := (w.objects.set p (some r.2.2)).set this (some r.2.1) }
    | _, _ => none
  | .destroy this =>
    match w.handle this with
    | some self =>
      some { sessions := FactoryWrapper.dtor w.sessions self, objects := w.objects.set this none }
    | none => none

/-- A sequence of operations, left to right. -/
def World.run (w : World) : List Op → Option World
  | [] => some w
  | op :: ops =>
    match w.step op with
    | some w1 => w1.run ops
    | none => none

/-- Whether the object slot holds a live handle whose entity pointer is `e`. -/
def refersTo (e : Nat) : Option FactoryWrapper → Bool
  | some h => decide (h.reference = some e)
  | none => false

/-- The number of live handles whose entity pointer is `e`. -/
def World.liveHandles (w : World) (e : Nat) : Nat := w.objects.countP (refersTo e)

/-- The counters `s` with `d` added to the counter of the entity `r` points to;
unchanged when `r` is null. -/
def adjust (s : Sessions) (r : Option Nat) (d : Int) : Sessions :=
  fun e => if r = some e then s e + d else s e

/-- The classes below `Window` together with `Window` itself; the other five
classes are `Object` and the classes below it. -/
def Derived.isWindowFamily : Derived → Bool
  | .Window | .Button | .Text | .Edit => true
  | _ => false

/-- The pairs of unrelated sibling classes: `Item` and `Container`, a class of
the `Object` family and one of the `Window` family, and two different classes
among `Button`, `Text`, `Edit`. -/
def Derived.unrelated (a b : Derived) : Bool :=
  (a == .Item && b == .Container) || (a == .Container && b == .Item) ||
  (a.isWindowFamily != b.isWindowFamily) ||
  (a != b && a.base == some .Window && b.base == some .Window)


/-! ## Fallible results -/

/-- Modelled from the spec: `VaultException`, declared in `VaultException.h`,
which is not part of the sources at hand.  It is the error carried by an
absent result (spec, section 7); only its message is kept. -/
structure VaultException where
  message : String
  deriving DecidableEq, Repr

/-- Modelled from the spec: `Expected<T>`, declared in `Expected.h`, which is
not part of the sources at hand.  The spec (section 7) describes it as a
fallible-result wrapper, present or error. -/
inductive Expected (α : Type) where
  | value (v : α)
  | exception (e : VaultException)
  deriving DecidableEq, Repr

/-- Modelled from the spec: the boolean conversion of `Expected<T>`, used as
`!reference` at line 260: whether a value is present. -/
def Expected.toBool {α : Type} : Expected α → Bool
  | .value _ => true
  | .exception _ => false

/-- Modelled from the spec: `Expected<T>::get()`.  The value when one is
present; on an absent result the dereference raises the stored error (spec,
section 7: callers cannot dereference a missing handle, an empty result is
converted into a raised error at the first dereference). -/
def Expected.get {α : Type} : Expected α → Except VaultException α
  | .value v => Except.ok v
  | .exception e => Except.error e

/-- Modelled from the spec: the destructor of `Expected<FactoryWrapper<T>>`:
a handle that is present is destroyed, which ends its session. -/
def Expected.dtor (s : Sessions) : Expected FactoryWrapper → Sessions
  | .value h => FactoryWrapper.dtor s h
  | .exception _ => s

/-! ## vaultcast (GameFactory.h 409-423) -/

/-- `vaultcast<T>(const FactoryWrapper<U>& object)` (lines 412-421).
`auto result = FactoryWrapper<T>(object);` is the constructor of line 380 (of
line 385 when `U` is `T`).  `return result;` moves the local handle into the
returned `Expected` and `return VaultException("vaultcast failed");` returns an
error; in both cases the local `result` is destroyed on the way out.  The
class `U` of the argument does not matter: only the `FactoryWrapper<Reference>`
part of `object` is read. -/
def vaultcast (T : Derived) (s : Sessions) (object : FactoryWrapper) :
    Sessions × Expected FactoryWrapper :=
  let c := T.copyCtor s object
  let result := c.2
  if result.validate T 0x00000000 then
    let m := FactoryWrapper.moveCtor result
    (FactoryWrapper.dtor c.1 m.2, Expected.value m.1)
  else
    (FactoryWrapper.dtor c.1 result, Expected.exception { message := "vaultcast failed" })

/-- `vaultcast<T>(const Expected<FactoryWrapper<U>>& object)` (line 423):
`vaultcast<T>(const_cast<...>(object).get())`.  The function is `noexcept`, so
the error raised by `get()` on an absent result ends the program: `none`. -/
def vaultcastExpected (T : Derived) (s : Sessions) (object : Expected FactoryWrapper) :
    Option (Sessions × Expected FactoryWrapper) :=
  match object.get with
  | Except.ok h => some (vaultcast T s h)
  | Except.error _ => none

/-- The outer casts of `vaultcast<Tn>(... vaultcast<T2>(cur) ...)`, with `cur`
the temporary returned by the cast before.  Every temporary but the last is
destroyed at the end of the full expression, the latest first. -/
def vaultcastRest : List Derived → Sessions → Expected FactoryWrapper →
    Option (Sessions × Expected FactoryWrapper)
  | [], s, cur => some (s, cur)
  | T :: Ts, s, cur =>
    match vaultcastExpected T s cur with
    | none => none
    | some r =>
      match vaultcastRest Ts r.1 r.2 with
      | none => none
      | some q => some (Expected.dtor q.1 cur, q.2)

/-- The nested cast `vaultcast<Tn>(... vaultcast<T1>(object) ...)`. -/
def vaultcastChain (T1 : Derived) (Ts : List Derived) (s : Sessions) (object : FactoryWrapper) :
    Option (Sessions × Expected FactoryWrapper) :=
  let r := vaultcast T1 s object
  vaultcastRest Ts r.1 r.2

/-! ## The dispatch layer: GameFactory::OperateFunctions (GameFactory.h 113-131, 254-285) -/

/-- `enum class FailPolicy` (lines 113-119); `Default` is `Exception`. -/
inductive FailPolicy
  | None | Return | Exception
  deriving DecidableEq, Repr

/-- `OperateReturn<FP, LaunchPolicy::Blocking, R>::type` (lines 123-125). -/
def OperateReturn : FailPolicy → Type → Type
  | .None, R => R
  | .Return, _ => Bool
  | .Exception, R => R

/-- The state in which `Operate` runs: the program state `σ` (registry,
counters and whatever else the caller-supplied function touches) and the
arguments with which the caller-supplied function has been invoked so far. -/
structure Run (σ A : Type) where
  state : σ
  calls : List A

/-- A call `function(a)` of the caller-supplied function.  The function
returns a value or raises an error, may change its argument, which it receives
by reference, and may change the program state; the call is recorded. -/
def invoke {σ A R : Type} (function : A → σ → Except VaultException R × A × σ) (a : A)
    (m : Run σ A) : Except VaultException R × A × Run σ A :=
  let r := function a m.state
  (r.1, r.2.1, { state := r.2.2, calls := m.calls ++ [a] })

/-- `OperateFunctions<T, FailPolicy::Return, LaunchPolicy::Blocking, I, F>::Operate`
(lines 256-266).  `GetObject` is `GameFactory::GetObject<T>`, which is only
declared in the header (lines 141-149), and `destroy` is the destructor of the
local `reference`, which runs when `Operate` is left; both are parameters.
The result is what `Operate` returns or raises, and the final state. -/
def OperateFunctions.Return {σ I H R : Type} (GetObject : I → σ → Expected H × σ)
    (destroy : Expected H → σ → σ) (id : I)
    (function : H → σ → Except VaultException R × H × σ) (m : Run σ H) :
    Except VaultException (OperateReturn .Return R) × Run σ H :=
  let g := GetObject id m.state
  let reference := g.1
  let m1 : Run σ H := { state := g.2, calls := m.calls }
  if !reference.toBool then
    (Except.ok false, { state := destroy reference m1.state, calls := m1.calls })
  else
    match reference.get with
    | Except.error e =>
      (Except.error e, { state := destroy reference m1.state, calls := m1.calls })
    | Except.ok h =>
      let c := invoke function h m1
      let m2 : Run σ H :=
        { state := destroy (Expected.value c.2.1) c.2.2.state, calls := c.2.2.calls }
      match c.1 with
      | Except.error e => (Except.error e, m2)
      | Except.ok _ => (Except.ok true, m2)

/-- `OperateFunctions<T, FailPolicy::Exception, LaunchPolicy::Blocking, I, F>::Operate`
(lines 271-275): `return function(reference.get());`.  The argument
`reference.get()` is evaluated before `function` is entered. -/
def OperateFunctions.Exception {σ I H R : Type} (GetObject : I → σ → Expected H × σ)
    (destroy : Expected H → σ → σ) (id : I)
    (function : H → σ → Except VaultException R × H × σ) (m : Run σ H) :
    Except VaultException (OperateReturn .Exception R) × Run σ H :=
  let g := GetObject id m.state
  let reference := g.1
  let m1 : Run σ H := { state := g.2, calls := m.calls }
  match reference.get with
  | Except.error e =>
    (Except.error e, { state := destroy reference m1.state, calls := m1.calls })
  | Except.ok h =>
    let c := invoke function h m1
    (c.1, { state := destroy (Expected.value c.2.1) c.2.2.state, calls := c.2.2.calls })

/-- `OperateFunctions<T, FailPolicy::None, LaunchPolicy::Blocking, I, F>::Operate`
(lines 280-284): `return function(reference);`, the function receives the
`Expected` itself. -/
def OperateFunctions.None {σ I H R : Type} (GetObject : I → σ → Expected H × σ)
    (destroy : Expected H → σ → σ) (id : I)
    (function : Expected H → σ → Except VaultException R × Expected H × σ)
    (m : Run σ (Expected H)) :
    Except VaultException (OperateReturn .None R) × Run σ (Expected H) :=
  let g := GetObject id m.state
  let reference := g.1
  let m1 : Run σ (Expected H) := { state := g.2, calls := m.calls }
  let c := invoke function reference m1
  (c.1, { state := destroy c.2.1 c.2.2.state, calls := c.2.2.calls })

/-- Modelled from the spec: `GameFactory::GetMultiple<T>`, which is only
declared in the header (lines 167-176); its definition is not part of the
sources at hand.  The spec (section 6) says that it returns one result per
input, preserving the input order, each independently resolved and
independently possibly absent.  `GetObject` is the resolution of one id
(a reference ID or a NetworkID) in the registry as it stands. -/
def GetMultiple {I H : Type} (GetObject : I → Expected H) (objects : List I) :
    List (Expected H) :=
  objects.map GetObject

/-! ## Relations between tags and masks -/

/-- Whether `tag` satisfies `mask`: the bitwise AND is not zero. -/
def satisfies (tag mask : Nat) : Bool := (tag &&& mask) != 0

/-- Whether the bits of `a` are a strict subset of the bits of `d`:
`a AND d = a` and `a ≠ d`. -/
def strictSubmask (a d : Nat) : Bool := (a &&& d) == a && a != d

/-- The ten category constants in the order of their declaration. -/
def tagConstants : List Nat :=
  [ID_REFERENCE, ID_OBJECT, ID_ITEM, ID_CONTAINER, ID_ACTOR, ID_PLAYER, ID_WINDOW, ID_BUTTON,
   ID_TEXT, ID_EDIT]

/-- The pairs (tag of an ancestor, tag of a descendant) of the hierarchy
Reference -> Object -> Item / Container -> Actor -> Player and
Reference -> Window -> Button / Text / Edit. -/
def ancestorTagPairs : List (Nat × Nat) :=
  [(ID_REFERENCE, ID_OBJECT), (ID_REFERENCE, ID_WINDOW),
   (ID_OBJECT, ID_ITEM), (ID_REFERENCE, ID_ITEM),
   (ID_OBJECT, ID_CONTAINER), (ID_REFERENCE, ID_CONTAINER),
   (ID_CONTAINER, ID_ACTOR), (ID_OBJECT, ID_ACTOR), (ID_REFERENCE, ID_ACTOR),
   (ID_ACTOR, ID_PLAYER), (ID_CONTAINER, ID_PLAYER), (ID_OBJECT, ID_PLAYER),
   (ID_REFERENCE, ID_PLAYER),
   (ID_WINDOW, ID_BUTTON), (ID_REFERENCE, ID_BUTTON),
   (ID_WINDOW, ID_TEXT), (ID_REFERENCE, ID_TEXT),
   (ID_WINDOW, ID_EDIT), (ID_REFERENCE, ID_EDIT)]

/-- The pairs (tag of a category, group mask of the category or of one of its
ancestors), for the four group masks `ALL_*`. -/
def groupMaskPairs : List (Nat × Nat) :=
  [(ID_OBJECT, ALL_OBJECTS), (ID_ITEM, ALL_OBJECTS), (ID_CONTAINER, ALL_OBJECTS),
   (ID_ACTOR, ALL_OBJECTS), (ID_PLAYER, ALL_OBJECTS),
   (ID_CONTAINER, ALL_CONTAINERS), (ID_ACTOR, ALL_CONTAINERS), (ID_PLAYER, ALL_CONTAINERS),
   (ID_ACTOR, ALL_ACTORS), (ID_PLAYER, ALL_ACTORS),
   (ID_WINDOW, ALL_WINDOWS), (ID_BUTTON, ALL_WINDOWS), (ID_TEXT, ALL_WINDOWS),
   (ID_EDIT, ALL_WINDOWS)]

/-! ## Handle comparison (GameFactory.h 358-359) -/

/-- `bool operator==(const FactoryWrapper& p) const` (line 358):
`return reference && reference == p.reference;`. -/
def FactoryWrapper.operatorEq (self p : FactoryWrapper) : Bool :=
  self.reference.isSome && decide (self.reference = p.reference)

/-- `bool operator!=(const FactoryWrapper& p) const` (line 359):
`return !operator==(p);`. -/
def FactoryWrapper.operatorNe (self p : FactoryWrapper) : Bool :=
  !(self.operatorEq p)

/-! ## The script interface (vaultscript/vaultscript.h) -/

/-- Conversion to `uint32_t`. -/
def toUInt32 (x : Nat) : Nat := x % 4294967296

def vaultmp.Type.ID_REFERENCE : Nat := 0x01
def vaultmp.Type.ID_OBJECT : Nat := shl32 vaultmp.Type.ID_REFERENCE 1
def vaultmp.Type.ID_ITEM : Nat := shl32 vaultmp.Type.ID_OBJECT 1
def vaultmp.Type.ID_CONTAINER : Nat := shl32 vaultmp.Type.ID_ITEM 1
def vaultmp.Type.ID_ACTOR : Nat := shl32 vaultmp.Type.ID_CONTAINER 1
def vaultmp.Type.ID_PLAYER : Nat := shl32 vaultmp.Type.ID_ACTOR 1
def vaultmp.Type.ID_WINDOW : Nat := shl32 vaultmp.Type.ID_PLAYER 1
def vaultmp.Type.ID_BUTTON : Nat := shl32 vaultmp.Type.ID_WINDOW 1
def vaultmp.Type.ID_TEXT : Nat := shl32 vaultmp.Type.ID_BUTTON 1
def vaultmp.Type.ID_EDIT : Nat := shl32 vaultmp.Type.ID_TEXT 1

def vaultmp.Type.ALL_OBJECTS : Nat :=
  vaultmp.Type.ID_OBJECT ||| vaultmp.Type.ID_ITEM ||| vaultmp.Type.ID_CONTAINER |||
    vaultmp.Type.ID_ACTOR ||| vaultmp.Type.ID_PLAYER
def vaultmp.Type.ALL_CONTAINERS : Nat :=
  vaultmp.Type.ID_CONTAINER ||| vaultmp.Type.ID_ACTOR ||| vaultmp.Type.ID_PLAYER
def vaultmp.Type.ALL_ACTORS : Nat := vaultmp.Type.ID_ACTOR ||| vaultmp.Type.ID_PLAYER
def vaultmp.Type.ALL_WINDOWS : Nat :=
  vaultmp.Type.ID_WINDOW ||| vaultmp.Type.ID_BUTTON ||| vaultmp.Type.ID_TEXT |||
    vaultmp.Type.ID_EDIT

/-- The function pointers `VAULTAPI(name)` that the host sets and the classes
below call (declared at lines 356-367, 385-386, 421, 461-464, 474).  An `ID` is
a 64-bit value, a `State` a boolean; every call may read and change the state
`σ` of the host.  `GetWindowChildList` returns the size and the array it
stores through its second argument. -/
structure ScriptAPI (σ : Type) where
  IsObject : Nat → σ → Bool × σ
  IsItem : Nat → σ → Bool × σ
  IsContainer : Nat → σ → Bool × σ
  IsActor : Nat → σ → Bool × σ
  IsPlayer : Nat → σ → Bool × σ
  IsWindow : Nat → σ → Bool × σ
  IsButton : Nat → σ → Bool × σ
  IsText : Nat → σ → Bool × σ
  IsEdit : Nat → σ → Bool × σ
  GetReference : Nat → σ → Nat × σ
  GetBase : Nat → σ → Nat × σ
  DestroyObject : Nat → σ → Bool × σ
  DestroyWindow : Nat → σ → Bool × σ
  GetParentWindow : Nat → σ → Nat × σ
  GetWindowRoot : Nat → σ → Nat × σ
  GetWindowChildCount : Nat → σ → Nat × σ
  GetWindowChildList : Nat → σ → (Nat × List Nat) × σ

namespace vaultmp

/-- `vaultmp::GetParentWindow` (line 858). -/
def GetParentWindow {σ : Type} (api : ScriptAPI σ) (id : Nat) (s : σ) : Nat × σ :=
  api.GetParentWindow id s

/-- `vaultmp::GetWindowRoot` (line 859). -/
def GetWindowRoot {σ : Type} (api : ScriptAPI σ) (id : Nat) (s : σ) : Nat × σ :=
  api.GetWindowRoot id s

/-- `vaultmp::GetWindowChildCount` (line 860). -/
def GetWindowChildCount {σ : Type} (api : ScriptAPI σ) (id : Nat) (s : σ) : Nat × σ :=
  api.GetWindowChildCount id s

/-- `vaultmp::GetWindowChildList` (lines 861-865):
`return size ? IDVector(data, data + size) : IDVector();`. -/
def GetWindowChildList {σ : Type} (api : ScriptAPI σ) (id : Nat) (s : σ) : List Nat × σ :=
  let r := api.GetWindowChildList id s
  let size := r.1.1
  let data := r.1.2
  (if size ≠ 0 then data.take size else [], r.2)

/-- The data members of `class Reference` (lines 897-900); the classes
`Object`, `Item`, `Container`, `Actor` and `Player` add none. -/
structure Reference where
  id : Nat
  refID : Nat
  baseID : Nat
  type : Nat
  deriving DecidableEq, Repr

/-- `Reference(ID id, Type type)` (line 902): `id(id)`,
`refID(id ? vaultmp::GetReference(id) : static_cast<Ref>(0))`,
`baseID(id ? vaultmp::GetBase(id) : static_cast<Base>(0))`, `type(type)`. -/
def Reference.ctor {σ : Type} (api : ScriptAPI σ) (id : Nat) (type : Nat) (s : σ) :
    Reference × σ :=
  let r1 := if id ≠ 0 then api.GetReference id s else (0, s)
  let r2 := if id ≠ 0 then api.GetBase id r1.2 else (0, r1.2)
  ({ id := id, refID := r1.1, baseID := r2.1, type := type }, r2.2)

/-- `State IsValid() const` (line 906): `return id ? True : False;`. -/
def Reference.IsValid (self : Reference) : Bool := if self.id ≠ 0 then true else false

/-- `ID GetID() const` (line 912). -/
def Reference.GetID (self : Reference) : Nat := self.id

/-- `Type GetType() const` (line 915). -/
def Reference.GetType (self : Reference) : Nat := self.type

/-- `Object(ID id, Type type)` (line 923). -/
def Object.ctorProtected {σ : Type} (api : ScriptAPI σ) (id : Nat) (type : Nat) (s : σ) :
    Reference × σ :=
  Reference.ctor api id type s

/-- `Object(ID id)` (line 926). -/
def Object.ctor {σ : Type} (api : ScriptAPI σ) (id : Nat) (s : σ) : Reference × σ :=
  let c := api.IsObject id s
  Reference.ctor api (if c.1 then id else 0) vaultmp.Type.ID_OBJECT c.2

/-- `State DestroyObject()` (line 937):
`State state = vaultmp::DestroyObject(id); id = static_cast<ID>(0); return state;`. -/
def Object.DestroyObject {σ : Type} (api : ScriptAPI σ) (self : Reference) (s : σ) :
    Bool × Reference × σ :=
  let r := api.DestroyObject self.id s
  (r.1, { self with id := 0 }, r.2)

/-- `Item(ID id, Type type)` (line 954). -/
def Item.ctorProtected {σ : Type} (api : ScriptAPI σ) (id : Nat) (type : Nat) (s : σ) :
    Reference × σ :=
  Object.ctorProtected api id type s

/-- `Item(ID id)` (line 957). -/
def Item.ctor {σ : Type} (api : ScriptAPI σ) (id : Nat) (s : σ) : Reference × σ :=
  let c := api.IsItem id s
  Object.ctorProtected api (if c.1 then id else 0) vaultmp.Type.ID_ITEM c.2

/-- `Container(ID id, Type type)` (line 993). -/
def Container.ctorProtected {σ : Type} (api : ScriptAPI σ) (id : Nat) (type : Nat) (s : σ) :
    Reference × σ :=
  Object.ctorProtected api id type s

/-- `Container(ID id)` (line 996). -/
def Container.ctor {σ : Type} (api : ScriptAPI σ) (id : Nat) (s : σ) : Reference × σ :=
  let c := api.IsContainer id s
  Object.ctorProtected api (if c.1 then id else 0) vaultmp.Type.ID_CONTAINER c.2

/-- `Actor(ID id, Type type)` (line 1160). -/
def Actor.ctorProtected {σ : Type} (api : ScriptAPI σ) (id : Nat) (type : Nat) (s : σ) :
    Reference × σ :=
  Container.ctorProtected api id type s

/-- `Actor(ID id)` (line 1163). -/
def Actor.ctor {σ : Type} (api : ScriptAPI σ) (id : Nat) (s : σ) : Reference × σ :=
  let c := api.IsActor id s
  Container.ctorProtected api (if c.1 then id else 0) vaultmp.Type.ID_ACTOR c.2

/-- `Player(ID id)` (line 1222). -/
def Player.ctor {σ : Type} (api : ScriptAPI σ) (id : Nat) (s : σ) : Reference × σ :=
  let c := api.IsPlayer id s
  Actor.ctorProtected api (if c.1 then id else 0) vaultmp.Type.ID_PLAYER c.2

/-- The data members of `class Window` (lines 1263-1264); the classes `Button`,
`Text` and `Edit` add none. -/
structure Window where
  id : Nat
  type : Nat
  deriving DecidableEq, Repr

/-- `Window(ID id, Type type)` (line 1266). -/
def Window.ctorProtected (id : Nat) (type : Nat) : Window := { id := id, type := type }

/-- `Window(ID id)` (line 1269). -/
def Window.ctor {σ : Type} (api : ScriptAPI σ) (id : Nat) (s : σ) : Window × σ :=
  let c := api.IsWindow id s
  ({ id := if c.1 then id else 0, type := vaultmp.Type.ID_WINDOW }, c.2)

/-- `State IsValid() const` (line 1272). -/
def Window.IsValid (self : Window) : Bool := if self.id ≠ 0 then true else false

/-- `ID GetID() const` (line 1278). -/
def Window.GetID (self : Window) : Nat := self.id

/-- `Type GetType() const` (line 1279). -/
def Window.GetType (self : Window) : Nat := self.type

/-- `ID GetParentWindow() const` (line 1281):
`return vaultmp::GetParentWindow(id);`. -/
def Window.GetParentWindow {σ : Type} (api : ScriptAPI σ) (self : Window) (s : σ) : Nat × σ :=
  vaultmp.GetParentWindow api self.id s

/-- `ID GetWindowRoot() const` (line 1282):
`return vaultmp::GetParentWindow(id);`. -/
def Window.GetWindowRoot {σ : Type} (api : ScriptAPI σ) (self : Window) (s : σ) : Nat × σ :=
  vaultmp.GetParentWindow api self.id s

/-- `UCount GetWindowChildCount() const` (line 1283):
`return vaultmp::GetParentWindow(id);`, the `ID` converted to `UCount`. -/
def Window.GetWindowChildCount {σ : Type} (api : ScriptAPI σ) (self : Window) (s : σ) :
    Nat × σ :=
  let r := vaultmp.GetParentWindow api self.id s
  (toUInt32 r.1, r.2)

/-- `IDVector GetWindowChildList() const` (line 1284):
`return vaultmp::GetWindowChildList(id);`. -/
def Window.GetWindowChildList {σ : Type} (api : ScriptAPI σ) (self : Window) (s : σ) :
    List Nat × σ :=
  vaultmp.GetWindowChildList api self.id s

/-- `State DestroyWindow()` (line 1291):
`State state = vaultmp::DestroyWindow(id); id = static_cast<ID>(0); return state;`. -/
def Window.DestroyWindow {σ : Type} (api : ScriptAPI σ) (self : Window) (s : σ) :
    Bool × Window × σ :=
  let r := api.DestroyWindow self.id s
  (r.1, { self with id := 0 }, r.2)

/-- `Button(ID id)` (line 1312), through `Window(ID id, Type type)`. -/
def Button.ctor {σ : Type} (api : ScriptAPI σ) (id : Nat) (s : σ) : Window × σ :=
  let c := api.IsButton id s
  (Window.ctorProtected (if c.1 then id else 0) vaultmp.Type.ID_BUTTON, c.2)

/-- `Text(ID id)` (line 1326), through `Window(ID id, Type type)`. -/
def Text.ctor {σ : Type} (api : ScriptAPI σ) (id : Nat) (s : σ) : Window × σ :=
  let c := api.IsText id s
  (Window.ctorProtected (if c.1 then id else 0) vaultmp.Type.ID_TEXT, c.2)

/-- `Edit(ID id)` (line 1340), through `Window(ID id, Type type)`. -/
def Edit.ctor {σ : Type} (api : ScriptAPI σ) (id : Nat) (s : σ) : Window × σ :=
  let c := api.IsEdit id s
  (Window.ctorProtected (if c.1 then id else 0) vaultmp.Type.ID_EDIT, c.2)

end vaultmp

/-- An object of one of the nine script wrapper classes: `Object`, `Item`,
`Container`, `Actor` and `Player` are `Reference` objects, `Window`, `Button`,
`Text` and `Edit` are `Window` objects. -/
inductive vaultmp.Wrapper
  | object (r : vaultmp.Reference)
  | window (w : vaultmp.Window)
  deriving DecidableEq, Repr

/-- `GetID()` of a wrapper object. -/
def vaultmp.Wrapper.GetID : vaultmp.Wrapper → Nat
  | .object r => r.GetID
  | .window w => w.GetID

/-- `IsValid()` of a wrapper object. -/
def vaultmp.Wrapper.IsValid : vaultmp.Wrapper → Bool
  | .object r => r.IsValid
  | .window w => w.IsValid

/-- `GetType()` of a wrapper object. -/
def vaultmp.Wrapper.GetType : vaultmp.Wrapper → Nat
  | .object r => r.GetType
  | .window w => w.GetType

/-- `Object::DestroyObject()` or `Window::DestroyWindow()` of a wrapper object. -/
def vaultmp.Wrapper.Destroy {σ : Type} (api : ScriptAPI σ) :
    vaultmp.Wrapper → σ → Bool × vaultmp.Wrapper × σ
  | .object r, s =>
    let d := vaultmp.Object.DestroyObject api r s
    (d.1, .object d.2.1, d.2.2)
  | .window w, s =>
    let d := vaultmp.Window.DestroyWindow api w s
    (d.1, .window d.2.1, d.2.2)

/-- The public constructor `K(ID id)` of each wrapper class `K`. -/
def vaultmp.construct {σ : Type} (api : ScriptAPI σ) :
    Derived → Nat → σ → vaultmp.Wrapper × σ
  | .Object, id, s => let c := vaultmp.Object.ctor api id s; (.object c.1, c.2)
  | .Item, id, s => let c := vaultmp.Item.ctor api id s; (.object c.1, c.2)
  | .Container, id, s => let c := vaultmp.Container.ctor api id s; (.object c.1, c.2)
  | .Actor, id, s => let c := vaultmp.Actor.ctor api id s; (.object c.1, c.2)
  | .Player, id, s => let c := vaultmp.Player.ctor api id s; (.object c.1, c.2)
  | .Window, id, s => let c := vaultmp.Window.ctor api id s; (.window c.1, c.2)
  | .Button, id, s => let c := vaultmp.Button.ctor api id s; (.window c.1, c.2)
  | .Text, id, s => let c := vaultmp.Text.ctor api id s; (.window c.1, c.2)
  | .Edit, id, s => let c := vaultmp.Edit.ctor api id s; (.window c.1, c.2)

/-- The predicate `IsK` that matches the wrapper class `K`. -/
def ScriptAPI.Is {σ : Type} (api : ScriptAPI σ) : Derived → Nat → σ → Bool × σ
  | .Object => api.IsObject
  | .Item => api.IsItem
  | .Container => api.IsContainer
  | .Actor => api.IsActor
  | .Player => api.IsPlayer
  | .Window => api.IsWindow
  | .Button => api.IsButton
  | .Text => api.IsText
  | .Edit => api.IsEdit

/-- The enumerator `Type::ID_K` of the wrapper class `K`. -/
def vaultmp.Type.ofClass : Derived → Nat
  | .Object => vaultmp.Type.ID_OBJECT
  | .Item => vaultmp.Type.ID_ITEM
  | .Container => vaultmp.Type.ID_CONTAINER
  | .Actor => vaultmp.Type.ID_ACTOR
  | .Player => vaultmp.Type.ID_PLAYER
  | .Window => vaultmp.Type.ID_WINDOW
  | .Button => vaultmp.Type.ID_BUTTON
  | .Text => vaultmp.Type.ID_TEXT
  | .Edit => vaultmp.Type.ID_EDIT

/-! ## The registry (spec sections 3, 4.1 and 4.3) -/

/-- Modelled from the spec: the error taxonomy of section 7. -/
inductive RegistryError
  | notFound | typeMismatch | duplicate | preconditionViolated
  deriving DecidableEq, Repr

/-- Modelled from the spec: the state of the registry (sections 3 and 4.2); the
definitions of the `GameFactory` members are in `GameFactory.cpp`, which is not
part of the sources at hand.  `instances` holds the identity and the type tag
of every entity that is in the indices, `sessions` the in-use counter of every
entity by identity, `delrefs` the retired identities, and `next` is the
identity that the next creation issues. -/
structure Registry where
  instances : List (Nat × Nat)
  sessions : Sessions
  delrefs : List Nat
  next : Nat

/-- Every identity in the indices has been issued before. -/
def Registry.wf (reg : Registry) : Bool := reg.instances.all (fun p => decide (p.1 < reg.next))

/-- Modelled from the spec: `CreateInstance` (section 4.1): a new entity of
the requested type gets a fresh identity and is inserted into the indices; the
call fails when the type tag is not one of the recognised kinds. -/
def Registry.CreateInstance (reg : Registry) (type : Nat) : Registry × Except RegistryError Nat :=
  if type ∈ tagConstants then
    ({ instances := reg.instances ++ [(reg.next, type)], sessions := reg.sessions,
       delrefs := reg.delrefs, next := reg.next + 1 }, Except.ok reg.next)
  else (reg, Except.error RegistryError.typeMismatch)

/-- Modelled from the spec: a lookup, `GetObject` (sections 4.1 and 4.3): the
identity is resolved in the indices; the handle starts a session on the entity
and records its tag; an identity that does not resolve is reported as not
found. -/
def Registry.GetObject (reg : Registry) (id : Nat) :
    Registry × Except RegistryError FactoryWrapper :=
  match reg.instances.lookup id with
  | some type =>
    ({ instances := reg.instances, sessions := (StartSession reg.sessions id).1,
       delrefs := reg.delrefs, next := reg.next },
      Except.ok { reference := some id, type := type })
  | none => (reg, Except.error RegistryError.notFound)

/-- Modelled from the spec: `DestroyInstance(identity)` (section 4.1): an
absent identity is reported as not found; otherwise the entity is removed from
the indices and its identity is retired. -/
def Registry.DestroyInstance (reg : Registry) (id : Nat) : Registry × Except RegistryError Nat :=
  match reg.instances.lookup id with
  | some _ =>
    ({ instances := reg.instances.filter (fun p => p.1 != id), sessions := reg.sessions,
       delrefs := id :: reg.delrefs, next := reg.next }, Except.ok id)
  | none => (reg, Except.error RegistryError.notFound)

/-- Modelled from the spec: the strict `DestroyInstance(FactoryWrapper<T>&)`,
which the header only declares (lines 240-246, with the remark that the lock
count of the reference must equal one).  Sections 4.1, 8 and 9 of the spec: the
count check and the destroy are one step; when the in-use counter of the entity
of the handle is exactly one, the entity is removed from the indices, its
identity is retired, the counter is decremented to zero by the call itself and
the handle is left empty; otherwise the call fails with precondition-violated
and nothing changes.  The result is the registry, the handle and the identity
destroyed or the error. -/
def Registry.DestroyInstanceStrict (reg : Registry) (reference : FactoryWrapper) :
    Registry × FactoryWrapper × Except RegistryError Nat :=
  match reference.reference with
  | none => (reg, reference, Except.error RegistryError.notFound)
  | some id =>
    match reg.instances.lookup id with
    | none => (reg, reference, Except.error RegistryError.notFound)
    | some _ =>
      if reg.sessions id = 1 then
        ({ instances := reg.instances.filter (fun p => p.1 != id),
           sessions := EndSession reg.sessions id,
           delrefs := id :: reg.delrefs, next := reg.next },
          FactoryWrapper.defaultCtor, Except.ok id)
      else (reg, reference, Except.error RegistryError.preconditionViolated)

/-- The calls that may follow on a registry. -/
inductive RegistryOp
  | create (type : Nat)
  | getObject (id : Nat)
  | release (reference : FactoryWrapper)
  | destroy (id : Nat)
  | destroyStrict (reference : FactoryWrapper)
  deriving DecidableEq, Repr

/-- One call on the registry; `release` is the destruction of a handle. -/
def Registry.step (reg : Registry) : RegistryOp → Registry
  | .create type => (reg.CreateInstance type).1
  | .getObject id => (reg.GetObject id).1
  | .release reference =>
    { instances := reg.instances, sessions := FactoryWrapper.dtor reg.sessions reference,
      delrefs := reg.delrefs, next := reg.next }
  | .destroy id => (reg.DestroyInstance id).1
  | .destroyStrict reference => (reg.DestroyInstanceStrict reference).1

/-- A sequence of calls, left to right. -/
def Registry.run (reg : Registry) : List RegistryOp → Registry
  | [] => reg
  | op :: ops => (reg.step op).run ops

/-! ## Sample inputs -/

/-- A world with one live `Item` handle on entity 5, whose counter is 1, and an
empty handle. -/
def sampleWorld : World :=
  { sessions := fun e => if e = 5 then 1 else 0,
    objects := [some { reference := some 5, type := ID_ITEM }, some FactoryWrapper.defaultCtor] }

/-- One operation of every kind, from the empty world. -/
def sampleOps : List Op :=
  [Op.construct (some Derived.Player) 3 ID_ACTOR, Op.copyConstruct 0,
   Op.moveConstruct (some Derived.Player) 1,
   Op.defaultConstruct, Op.copyAssign 3 0, Op.moveAssign 1 3, Op.destroy 0]

/-- The world reached by `sampleOps`. -/
def sampleFinal : World :=
  { sessions := fun e => if e = 3 then 2 else 0,
    objects := [none, some { reference := some 3, type := ID_ACTOR },
      some { reference := some 3, type := ID_ACTOR }, some { reference := none, type := 0 }] }


/-- A registry with one entity: the id 1 resolves to a `Player` handle on
entity 5 and starts a session, every other id is unknown.  The program state
is the in-use counter of entity 5. -/
def sampleGetObject (id : Nat) (s : Nat) : Expected FactoryWrapper × Nat :=
  if id = 1 then (Expected.value { reference := some 5, type := ID_PLAYER }, s + 1)
  else (Expected.exception { message := "unknown object" }, s)

/-- The destructor of the local result for `sampleGetObject`: a handle that is
present ends its session. -/
def sampleDestroy (e : Expected FactoryWrapper) (s : Nat) : Nat :=
  match e with
  | .value _ => s - 1
  | .exception _ => s

/-- A function that returns the tag of the handle it receives. -/
def sampleFunction (h : FactoryWrapper) (s : Nat) : Except VaultException Nat × FactoryWrapper × Nat :=
  (Except.ok h.type, h, s)

/-- A function on the fallible result: 1 when a handle is present, else 0. -/
def sampleFunctionExpected (e : Expected FactoryWrapper) (s : Nat) :
    Except VaultException Nat × Expected FactoryWrapper × Nat :=
  (Except.ok (if e.toBool then 1 else 0), e, s)

/-- Resolution of one id in a registry that knows the ids 1 and 3. -/
def sampleResolve (id : Nat) : Expected FactoryWrapper :=
  if id = 1 then Expected.value { reference := some 5, type := ID_PLAYER }
  else if id = 3 then Expected.value { reference := some 6, type := ID_ITEM }
  else Expected.exception { message := "unknown object" }

/-- A script host that knows the window 1, a button, whose parent is the
window 2 and whose root is the window 3; it has 4 children.  The state counts
the calls made. -/
def sampleAPI : ScriptAPI Nat :=
  { IsObject := fun _ s => (false, s + 1)
    IsItem := fun _ s => (false, s + 1)
    IsContainer := fun _ s => (false, s + 1)
    IsActor := fun _ s => (false, s + 1)
    IsPlayer := fun _ s => (false, s + 1)
    IsWindow := fun id s => (decide (id = 1 ∨ id = 2 ∨ id = 3), s + 1)
    IsButton := fun id s => (decide (id = 1), s + 1)
    IsText := fun _ s => (false, s + 1)
    IsEdit := fun _ s => (false, s + 1)
    GetReference := fun _ s => (0, s + 1)
    GetBase := fun _ s => (0, s + 1)
    DestroyObject := fun _ s => (false, s + 1)
    DestroyWindow := fun _ s => (false, s + 1)
    GetParentWindow := fun id s => (if id = 1 then 2 else 0, s + 1)
    GetWindowRoot := fun id s => (if id = 1 then 3 else 0, s + 1)
    GetWindowChildCount := fun id s => (if id = 1 then 4 else 0, s + 1)
    GetWindowChildList := fun id s => (if id = 1 then (4, [5, 6, 7, 8]) else (0, []), s + 1) }

/-- A registry with the `Player` entity 0, whose in-use counter is 1. -/
def sampleRegistry : Registry :=
  { instances := [(0, ID_PLAYER)], sessions := fun e => if e = 0 then 1 else 0, delrefs := [],
    next := 1 }

/-! ## Lists of object slots -/

theorem handle_lt_length (w : World) (a : Nat) (h : FactoryWrapper)
    (ha : w.handle a = some h) : a < w.objects.length := by
  unfold World.handle at ha
  by_contra hlt
  rw [List.getD_eq_default _ _ (Nat.le_of_not_lt hlt)] at ha
  cases ha

theorem getD_append_old {α : Type} (l : List (Option α)) (x : Option α) (a : Nat)
    (ha : a < l.length) : (l ++ [x]).getD a none = l.getD a none := by
  simp [List.getD_eq_getElem?_getD, List.getElem?_append_left ha]

theorem getD_append_new {α : Type} (l : List (Option α)) (x : Option α) :
    (l ++ [x]).getD l.length none = x := by
  simp [List.getD_eq_getElem?_getD]

theorem getD_set_same {α : Type} (l : List (Option α)) (x : Option α) (a : Nat)
    (ha : a < l.length) : (l.set a x).getD a none = x := by
  simp [List.getD_eq_getElem?_getD, ha]

theorem getD_set_other {α : Type} (l : List (Option α)) (x : Option α) (a b : Nat)
    (hab : a ≠ b) : (l.set a x).getD b none = l.getD b none := by
  simp [List.getD_eq_getElem?_getD, List.getElem?_set_ne hab]

theorem set_getD_self {α : Type} (l : List (Option α)) (x : α) (a : Nat)
    (ha : l.getD a none = some x) : l.set a (some x) = l := by
  induction l generalizing a with
  | nil => rfl
  | cons y ys ih =>
    cases a with
    | zero =>
      simp only [List.getD_cons_zero] at ha
      simp [ha]
    | succ n =>
      simp only [List.getD_cons_succ] at ha
      simp [ih n ha]

theorem countP_set_getD {α : Type} (q : Option α → Bool) (l : List (Option α)) (a : Nat)
    (old : α) (x : Option α) (ha : l.getD a none = some old) :
    (l.set a x).countP q + (if q (some old) then 1 else 0)
      = l.countP q + (if q x then 1 else 0) := by
  induction l generalizing a with
  | nil => simp at ha
  | cons y ys ih =>
    cases a with
    | zero =>
      simp only [List.getD_cons_zero] at ha
      subst ha
      simp only [List.set_cons_zero, List.countP_cons]
      omega
    | succ n =>
      simp only [List.getD_cons_succ] at ha
      have := ih n ha
      simp [List.countP_cons]
      omega


/-! ## The constructors in closed form -/

theorem ctorBody_fst (d : Derived) (self : FactoryWrapper) (r : Option Nat) :
    (GF_TYPE_WRAPPER.ctorBody d self r).1 = self := by
  unfold GF_TYPE_WRAPPER.ctorBody
  split <;> rfl

theorem registryCtor_eq (kind : Option Derived) (s : Sessions) (r t : Nat) :
    registryCtor kind s r t
      = (fun e => if e = r then s e + 1 else s e, { reference := some r, type := t }) := by
  cases kind with
  | none => rfl
  | some d =>
    cases d <;>
      simp [registryCtor, Derived.ctor, FactoryObject.ctor, FactoryItem.ctor,
        FactoryContainer.ctor, FactoryActor.ctor, FactoryPlayer.ctor, FactoryWindow.ctor,
        FactoryButton.ctor, FactoryText.ctor, FactoryEdit.ctor, GF_TYPE_WRAPPER.ctor,
        ctorBody_fst, FactoryWrapper.ctor, StartSession]

theorem refersTo_some (e : Nat) (h : FactoryWrapper) :
    refersTo e (some h) = decide (h.reference = some e) := rfl

/-! ## The member functions in closed form -/

theorem adjust_apply (s : Sessions) (r : Option Nat) (d : Int) (e : Nat) :
    adjust s r d e = if r = some e then s e + d else s e := rfl

theorem adjust_none (s : Sessions) (d : Int) : adjust s none d = s := by
  funext e
  simp [adjust]

theorem copyCtor_eq (s : Sessions) (p : FactoryWrapper) :
    FactoryWrapper.copyCtor s p = (adjust s p.reference 1, p) := by
  obtain ⟨r, t⟩ := p
  cases r with
  | none => simp [FactoryWrapper.copyCtor, adjust_none]
  | some r =>
    simp only [FactoryWrapper.copyCtor, StartSession, Prod.mk.injEq, and_true]
    funext e
    simp [adjust, eq_comm]

theorem dtor_eq (s : Sessions) (x : FactoryWrapper) :
    FactoryWrapper.dtor s x = adjust s x.reference (-1) := by
  obtain ⟨r, t⟩ := x
  cases r with
  | none => simp [FactoryWrapper.dtor, adjust_none]
  | some r =>
    funext e
    simp [FactoryWrapper.dtor, EndSession, adjust, eq_comm, sub_eq_add_neg]

theorem copyAssign_eq (s : Sessions) (a b : Nat) (x y : FactoryWrapper) (hab : a ≠ b) :
    FactoryWrapper.copyAssign s a x b y
      = (adjust (adjust s x.reference (-1)) y.reference 1, y) := by
  have h1 : (match x.reference with
      | some r => EndSession s r
      | none => s) = adjust s x.reference (-1) := by rw [← dtor_eq]; rfl
  have h2 := copyCtor_eq (adjust s x.reference (-1)) y
  simp only [FactoryWrapper.copyCtor] at h2
  simp only [FactoryWrapper.copyAssign, ne_eq, hab, not_false_eq_true, if_true, h1]
  obtain ⟨yr, yt⟩ := y
  cases yr with
  | none => simpa using h2
  | some r => simpa using h2

theorem moveAssign_eq (s : Sessions) (a b : Nat) (x y : FactoryWrapper) (hab : a ≠ b) :
    FactoryWrapper.moveAssign s a x b y
      = (adjust s x.reference (-1), y, { reference := none, type := 0 }) := by
  have h1 : (match x.reference with
      | some r => EndSession s r
      | none => s) = adjust s x.reference (-1) := by rw [← dtor_eq]; rfl
  simp only [FactoryWrapper.moveAssign, ne_eq, hab, not_false_eq_true, if_true, h1]

/-- The move constructor of every class in closed form: a real move when the
base class is `FactoryWrapper<Reference>`, a copy that leaves the source bound
otherwise. -/
theorem classMoveCtor_eq (kind : Option Derived) (s : Sessions) (p : FactoryWrapper) :
    classMoveCtor kind s p
      = if basedOnReference kind = true then (s, p, { reference := none, type := 0 })
        else (adjust s p.reference 1, p, p) := by
  cases kind with
  | none => rfl
  | some d =>
    cases d <;>
      simp [classMoveCtor, Derived.moveCtor, FactoryObject.moveCtor, FactoryItem.moveCtor,
        FactoryContainer.moveCtor, FactoryActor.moveCtor, FactoryPlayer.moveCtor,
        FactoryWindow.moveCtor, FactoryButton.moveCtor, FactoryText.moveCtor,
        FactoryEdit.moveCtor, GF_TYPE_WRAPPER.moveCtor, GF_TYPE_WRAPPER.fromDerived,
        FactoryWrapper.moveInit, FactoryWrapper.moveCtor, FactoryObject.copyCtor,
        FactoryContainer.copyCtor, FactoryActor.copyCtor, FactoryWindow.copyCtor,
        GF_TYPE_WRAPPER.copyCtor, copyCtor_eq, basedOnReference, Derived.base]

/-! ## Every operation keeps counters and live handles in balance -/

theorem step_balance (w w1 : World) (op : Op) (h : w.step op = some w1) (e : Nat) :
    w1.sessions e - (w1.liveHandles e : Int) = w.sessions e - (w.liveHandles e : Int) := by
  cases op with
  | construct kind r t =>
    simp only [World.step, registryCtor_eq, Option.some.injEq] at h
    subst h
    simp only [World.liveHandles, List.countP_append, List.countP_cons, List.countP_nil,
      refersTo_some]
    by_cases her : e = r
    · subst her; simp
    · have : ¬ r = e := fun h => her h.symm
      simp [her, this]
  | defaultConstruct =>
    simp only [World.step, Option.some.injEq] at h
    subst h
    simp [World.liveHandles, List.countP_append, refersTo, FactoryWrapper.defaultCtor]
  | copyConstruct p =>
    simp only [World.step] at h
    cases hp : w.handle p with
    | none => simp [hp] at h
    | some x =>
      simp only [hp, Option.some.injEq, copyCtor_eq] at h
      subst h
      simp only [World.liveHandles, List.countP_append, List.countP_cons, List.countP_nil,
        refersTo_some, adjust_apply]
      by_cases hx : x.reference = some e <;> simp [hx]
  | moveConstruct kind p =>
    simp only [World.step] at h
    cases hp : w.handle p with
    | none => simp [hp] at h
    | some x =>
      simp only [hp, Option.some.injEq, classMoveCtor_eq] at h
      subst h
      by_cases hk : basedOnReference kind = true
      · have hc := countP_set_getD (refersTo e) w.objects p x
          (some { reference := none, type := 0 }) hp
        simp only [if_pos hk]
        simp only [World.liveHandles, List.countP_append, List.countP_cons,
          List.countP_nil, refersTo_some] at hc ⊢
        by_cases hx : x.reference = some e <;> simp [hx] at hc ⊢ <;> omega
      · simp only [if_neg hk]
        simp only [World.liveHandles, set_getD_self _ _ _ hp,
          List.countP_append, List.countP_cons, List.countP_nil, refersTo_some, adjust_apply]
        by_cases hx : x.reference = some e <;> simp [hx]
  | copyAssign a b =>
    simp only [World.step] at h
    cases ha : w.handle a with
    | none => simp [ha] at h
    | some x =>
      cases hb : w.handle b with
      | none => simp [ha, hb] at h
      | some y =>
        simp only [ha, hb, Option.some.injEq] at h
        subst h
        by_cases hab : a = b
        · subst hab
          have h1 : w.objects.set a (some x) = w.objects := set_getD_self _ _ _ ha
          simp [FactoryWrapper.copyAssign, World.liveHandles, h1]
        · have hc := countP_set_getD (refersTo e) w.objects a x (some y) ha
          simp only [World.liveHandles, copyAssign_eq _ _ _ _ _ hab, adjust_apply,
            refersTo_some] at hc ⊢
          by_cases hx : x.reference = some e <;> by_cases hy : y.reference = some e <;>
            simp [hx, hy] at hc ⊢ <;> omega
  | moveAssign a b =>
    simp only [World.step] at h
    cases ha : w.handle a with
    | none => simp [ha] at h
    | some x =>
      cases hb : w.handle b with
      | none => simp [ha, hb] at h
      | some y =>
        simp only [ha, hb, Option.some.injEq] at h
        subst h
        by_cases hab : a = b
        · subst hab
          have hxy : x = y := by rw [ha] at hb; exact Option.some.inj hb
          subst hxy
          have h1 : w.objects.set a (some x) = w.objects := set_getD_self _ _ _ ha
          simp [FactoryWrapper.moveAssign, World.liveHandles, h1]
        · have c1 := countP_set_getD (refersTo e) w.objects b y
            (some { reference := none, type := 0 }) hb
          have ha1 : (w.objects.set b (some { reference := none, type := 0 })).getD
              a none = some x := by
            rw [getD_set_other _ _ _ _ (fun h => hab h.symm)]; exact ha
          have c2 := countP_set_getD (refersTo e) _ a x (some y) ha1
          simp only [World.liveHandles, moveAssign_eq _ _ _ _ _ hab, adjust_apply,
            refersTo_some] at c1 c2 ⊢
          by_cases hx : x.reference = some e <;> by_cases hy : y.reference = some e <;>
            simp [hx, hy] at c1 c2 ⊢ <;> omega
  | destroy a =>
    simp only [World.step] at h
    cases ha : w.handle a with
    | none => simp [ha] at h
    | some x =>
      simp only [ha, Option.some.injEq] at h
      subst h
      have hc := countP_set_getD (refersTo e) w.objects a x none ha
      simp only [World.liveHandles, refersTo_some, dtor_eq, adjust_apply] at hc ⊢
      by_cases hx : x.reference = some e <;> simp [hx, refersTo] at hc ⊢ <;> omega


/-! ## Sequences of operations -/

theorem run_balance (ops : List Op) (w w1 : World) (h : w.run ops = some w1) (e : Nat) :
    w1.sessions e - (w1.liveHandles e : Int) = w.sessions e - (w.liveHandles e : Int) := by
  induction ops generalizing w with
  | nil =>
    simp only [World.run, Option.some.injEq] at h
    subst h
    rfl
  | cons op ops ih =>
    simp only [World.run] at h
    cases hs : w.step op with
    | none => simp [hs] at h
    | some w2 =>
      simp only [hs] at h
      rw [ih w2 h, step_balance w w2 op hs e]

theorem run_append (ops1 ops2 : List Op) (w : World) :
    w.run (ops1 ++ ops2) = (w.run ops1).bind (fun w1 => w1.run ops2) := by
  induction ops1 generalizing w with
  | nil => rfl
  | cons op ops ih =>
    simp only [List.cons_append, World.run]
    cases w.step op with
    | none => rfl
    | some w2 => exact ih w2

/-- Constructing a handle on `e` and copying it `n` times succeeds and appends
`n + 1` equal handles to the objects. -/
theorem run_construct_copies (w : World) (kind : Option Derived) (e t n : Nat) :
    ∃ w2, w.run (Op.construct kind e t :: List.replicate n (Op.copyConstruct w.objects.length))
        = some w2 ∧
      w2.objects = w.objects ++ List.replicate (n + 1) (some { reference := some e, type := t }) := by
  induction n with
  | zero =>
    refine ⟨⟨(registryCtor kind w.sessions e t).1,
      w.objects ++ [some (registryCtor kind w.sessions e t).2]⟩, ?_, ?_⟩
    · simp only [List.replicate_zero, World.run, World.step]
    · simp [registryCtor_eq]
  | succ n ih =>
    obtain ⟨w2, hrun, hobj⟩ := ih
    have hlook : w2.handle w.objects.length = some { reference := some e, type := t } := by
      unfold World.handle
      rw [hobj, List.getD_eq_getElem?_getD, List.getElem?_append_right (Nat.le_refl _)]
      simp [List.replicate_succ]
    have hstep : w2.step (Op.copyConstruct w.objects.length)
        = some ⟨adjust w2.sessions (some e) 1, w2.objects ++ [some ⟨some e, t⟩]⟩ := by
      simp only [World.step, hlook, copyCtor_eq]
    refine ⟨⟨adjust w2.sessions (some e) 1,
      w2.objects ++ [some ⟨some e, t⟩]⟩, ?_, ?_⟩
    · rw [List.replicate_succ', ← List.cons_append, run_append, hrun]
      simp only [Option.some_bind, World.run, hstep]
    · simp only [hobj, List.append_assoc]
      rw [← List.replicate_succ']

/-- Destroying pairwise different live handles succeeds; exactly their slots
become dead. -/
theorem run_destroy_all (order : List Nat) (w : World) (hnd : order.Nodup)
    (hlive : ∀ a ∈ order, (w.handle a).isSome = true) :
    ∃ w3, w.run (order.map Op.destroy) = some w3 ∧
      w3.objects.length = w.objects.length ∧
      ∀ a, w3.handle a = if a ∈ order then none else w.handle a := by
  induction order generalizing w with
  | nil => exact ⟨w, rfl, rfl, fun a => by simp⟩
  | cons a rest ih =>
    have ha := hlive a (List.mem_cons_self _ _)
    obtain ⟨x, hx⟩ := Option.isSome_iff_exists.mp ha
    have halt := handle_lt_length w a x hx
    have hnd2 := List.nodup_cons.mp hnd
    have hstep : w.step (Op.destroy a)
        = some ⟨FactoryWrapper.dtor w.sessions x, w.objects.set a none⟩ := by
      simp only [World.step, hx]
    have hlive2 : ∀ b ∈ rest,
        (World.handle ⟨FactoryWrapper.dtor w.sessions x, w.objects.set a none⟩ b).isSome
          = true := by
      intro b hb
      have hne : a ≠ b := fun h => hnd2.1 (h ▸ hb)
      simp only [World.handle, getD_set_other _ _ _ _ hne]
      exact hlive b (List.mem_cons_of_mem _ hb)
    obtain ⟨w3, hrun, hlen, hh⟩ := ih _ hnd2.2 hlive2
    refine ⟨w3, ?_, ?_, ?_⟩
    · simp only [List.map_cons, World.run, hstep, hrun]
    · simpa using hlen
    · intro b
      rw [hh b]
      by_cases hb : b ∈ rest
      · simp [hb]
      · by_cases hab : a = b
        · subst hab
          simp only [World.handle, getD_set_same _ _ _ halt]
          simp
        · have hba : ¬ b = a := fun h => hab h.symm
          simp only [World.handle, getD_set_other _ _ _ _ hab]
          simp [hb, hba]

theorem objects_ext (l1 l2 : List (Option FactoryWrapper)) (hlen : l1.length = l2.length)
    (h : ∀ a, l1.getD a none = l2.getD a none) : l1 = l2 := by
  apply List.ext_getElem hlen
  intro n h1 h2
  have := h n
  rw [List.getD_eq_getElem _ _ h1, List.getD_eq_getElem _ _ h2] at this
  exact this


theorem getD_append_replicate (l : List (Option FactoryWrapper)) (k : Nat)
    (x : Option FactoryWrapper) (a : Nat) :
    (l ++ List.replicate k x).getD a none
      = if a < l.length then l.getD a none else if a < l.length + k then x else none := by
  by_cases h1 : a < l.length
  · simp only [List.getD_eq_getElem?_getD, List.getElem?_append_left h1, h1, if_true]
  · have h2 : l.length ≤ a := Nat.le_of_not_lt h1
    simp only [List.getD_eq_getElem?_getD, List.getElem?_append_right h2, h1, if_false,
      List.getElem?_replicate]
    by_cases h3 : a < l.length + k
    · have h4 : a - l.length < k := by omega
      simp [h3, h4]
    · have h4 : ¬ a - l.length < k := by omega
      simp [h3, h4]

/-- After the handle on `e` and its `n` copies have all been destroyed, in
whatever order, the objects are the old ones followed by `n + 1` dead slots and
every counter has its old value. -/
theorem run_round_trip (w : World) (kind : Option Derived) (e t n : Nat) (order : List Nat)
    (horder : order.Perm (List.range' w.objects.length (n + 1))) :
    ∃ w1, w.run (Op.construct kind e t ::
        (List.replicate n (Op.copyConstruct w.objects.length) ++ order.map Op.destroy))
          = some w1 ∧
      w1.objects = w.objects ++ List.replicate (n + 1) none ∧
      ∀ x, w1.sessions x = w.sessions x := by
  obtain ⟨w2, hrun2, hobj2⟩ := run_construct_copies w kind e t n
  have hnd : order.Nodup := horder.nodup_iff.mpr (List.nodup_range' _ _)
  have hmem : ∀ a, a ∈ order ↔ w.objects.length ≤ a ∧ a < w.objects.length + (n + 1) := by
    intro a
    rw [horder.mem_iff, List.mem_range'_1]
  have hh2 : ∀ a, w2.handle a = if a < w.objects.length then w.handle a
      else if a < w.objects.length + (n + 1) then some ⟨some e, t⟩ else none := by
    intro a
    simp only [World.handle, hobj2]
    exact getD_append_replicate _ _ _ a
  have hlive : ∀ a ∈ order, (w2.handle a).isSome = true := by
    intro a ha
    have := (hmem a).mp ha
    have h1 : ¬ a < w.objects.length := by omega
    rw [hh2 a]
    simp [h1, this.2]
  obtain ⟨w3, hrun3, hlen3, hh3⟩ := run_destroy_all order w2 hnd hlive
  have hobj3 : w3.objects = w.objects ++ List.replicate (n + 1) none := by
    apply objects_ext
    · rw [hlen3, hobj2]
      simp
    · intro a
      have h3 := hh3 a
      simp only [World.handle] at h3 hh2
      rw [h3, getD_append_replicate]
      by_cases ha : a ∈ order
      · have := (hmem a).mp ha
        have h1 : ¬ a < w.objects.length := by omega
        simp [ha, h1]
      · rw [if_neg ha, hh2 a]
        by_cases h1 : a < w.objects.length
        · simp [h1]
        · have h2 : ¬ a < w.objects.length + (n + 1) := by
            intro h
            exact ha ((hmem a).mpr ⟨Nat.le_of_not_lt h1, h⟩)
          simp [h1, h2]
  have hrun : w.run (Op.construct kind e t ::
      (List.replicate n (Op.copyConstruct w.objects.length) ++ order.map Op.destroy))
        = some w3 := by
    rw [← List.cons_append, run_append, hrun2]
    exact hrun3
  refine ⟨w3, hrun, hobj3, ?_⟩
  intro x
  have hbal := run_balance _ w w3 hrun x
  have hlv : w3.liveHandles x = w.liveHandles x := by
    simp [World.liveHandles, hobj3, List.countP_append, List.countP_replicate, refersTo]
  rw [hlv] at hbal
  omega


theorem sample_run : World.empty.run sampleOps = some sampleFinal := by
  simp only [sampleOps, World.run, World.step, registryCtor_eq, World.handle, World.empty,
    List.nil_append, List.getD_cons_zero, List.getD_cons_succ, copyCtor_eq,
    classMoveCtor_eq, basedOnReference, Derived.base, Option.isNone_some, Bool.false_eq_true,
    if_false, List.cons_append, List.set_cons_zero, List.set_cons_succ,
    FactoryWrapper.defaultCtor, copyAssign_eq _ 3 0 _ _ (by decide),
    moveAssign_eq _ 1 3 _ _ (by decide), dtor_eq, sampleFinal, Option.some.injEq,
    World.mk.injEq]
  refine ⟨?_, ?_⟩
  · funext e
    simp only [adjust]
    by_cases he : e = 3
    · subst he; simp
    · have : ¬ 3 = e := fun h => he h.symm
      simp [he, this]
  · decide


/-! ## The claims -/

/-- C1 (the code at the failing input): a `Player` handle constructed by
`FactoryWrapper<Player>(Reference*, unsigned int)` on entity 7 with the tag
`ID_ACTOR` fails `validate<Player>()`, and yet its entity pointer is entity 7,
not null, its boolean conversion is true, and the session it started on the
entity is still counted: the assignment in the constructor body reached the
constructor parameter only. -/
theorem C1_player_handle_on_actor_stays_bound :
    (Derived.ctor Derived.Player (fun _ => 0) 7 ID_ACTOR).2.validate Derived.Player 0 = false ∧
    (Derived.ctor Derived.Player (fun _ => 0) 7 ID_ACTOR).2.reference = some 7 ∧
    (Derived.ctor Derived.Player (fun _ => 0) 7 ID_ACTOR).2.toBool = true ∧
    (Derived.ctor Derived.Player (fun _ => 0) 7 ID_ACTOR).1 7 = 1 ∧
    (GF_TYPE_WRAPPER.ctorBody Derived.Player { reference := some 7, type := ID_ACTOR } (some 7))
      = ({ reference := some 7, type := ID_ACTOR }, none) := by
  refine ⟨?_, ?_, ?_, ?_, ?_⟩
  · rw [show Derived.ctor Derived.Player = registryCtor (some Derived.Player) from rfl,
      registryCtor_eq]
    decide
  · rw [show Derived.ctor Derived.Player = registryCtor (some Derived.Player) from rfl,
      registryCtor_eq]
  · rw [show Derived.ctor Derived.Player = registryCtor (some Derived.Player) from rfl,
      registryCtor_eq]
    rfl
  · rw [show Derived.ctor Derived.Player = registryCtor (some Derived.Player) from rfl,
      registryCtor_eq]
    simp
  · decide

/-- C2: after every finite sequence of handle operations (registry
construction, default, copy and move construction, copy and move assignment,
destruction) that starts with no handle and all in-use counters at 0, the
in-use counter of every entity equals the number of live handles whose entity
pointer is that entity; hence it is not negative, and it is zero exactly when
no live handle refers to the entity. -/
theorem C2_counter_equals_live_handles (ops : List Op) (w : World)
    (hrun : World.empty.run ops = some w) (e : Nat) :
    w.sessions e = (w.liveHandles e : Int) ∧ 0 ≤ w.sessions e ∧
      (w.sessions e = 0 ↔ w.liveHandles e = 0) := by
  have h := run_balance ops World.empty w hrun e
  have h0 : World.empty.sessions e - (World.empty.liveHandles e : Int) = 0 := by
    simp [World.empty, World.liveHandles]
  rw [h0] at h
  refine ⟨by omega, by omega, by omega⟩

/-- The sample sequence, which uses every operation, runs to `sampleFinal`,
where two live handles refer to entity 3 and its counter is 2. -/
theorem C2_counter_equals_live_handles_witness :
    World.empty.run sampleOps = some sampleFinal ∧ sampleFinal.liveHandles 3 = 2 ∧
    (sampleFinal.sessions 3 = (sampleFinal.liveHandles 3 : Int) ∧ 0 ≤ sampleFinal.sessions 3 ∧
      (sampleFinal.sessions 3 = 0 ↔ sampleFinal.liveHandles 3 = 0)) :=
  ⟨sample_run, by decide, C2_counter_equals_live_handles sampleOps sampleFinal sample_run 3⟩

/-- C3: from any world, constructing one handle of any class on entity `e`
(tag `t`), copy-constructing `n` further handles from it, and then destroying
all `n + 1` handles in any order `order` succeeds and leaves the in-use counter
of `e` at its value before the construction; no other counter has changed
either. -/
theorem C3_acquire_copy_drop_round_trip (w : World) (kind : Option Derived) (e t n : Nat)
    (order : List Nat) (horder : order.Perm (List.range' w.objects.length (n + 1))) :
    ∃ w1, w.run (Op.construct kind e t ::
        (List.replicate n (Op.copyConstruct w.objects.length) ++ order.map Op.destroy))
          = some w1 ∧
      w1.sessions e = w.sessions e ∧ w1.sessions = w.sessions := by
  obtain ⟨w1, hrun, _, hs⟩ := run_round_trip w kind e t n order horder
  exact ⟨w1, hrun, hs e, funext hs⟩

/-- In `sampleWorld` (entity 5 has counter 1): an `Actor` handle on entity 5 is
constructed at address 2, copied twice (addresses 3 and 4), and the three are
destroyed in the order 3, 2, 4. -/
theorem C3_acquire_copy_drop_round_trip_witness :
    [3, 2, 4].Perm (List.range' sampleWorld.objects.length (2 + 1)) ∧
    ∃ w1, sampleWorld.run (Op.construct (some Derived.Actor) 5 ID_ACTOR ::
        (List.replicate 2 (Op.copyConstruct sampleWorld.objects.length)
          ++ [3, 2, 4].map Op.destroy)) = some w1 ∧
      w1.sessions 5 = sampleWorld.sessions 5 ∧ w1.sessions = sampleWorld.sessions :=
  ⟨by decide,
    C3_acquire_copy_drop_round_trip sampleWorld (some Derived.Actor) 5 ID_ACTOR 2 [3, 2, 4]
      (by decide)⟩

/-- C4: for every class `T` (`none` is `Reference`), every entity `e` and
every tag `t`, the constructor `FactoryWrapper<T>(Reference*, unsigned int)`
increments the in-use counter of `e` by exactly one, changes no other counter,
and records `t`: `GetType()` of the new handle returns `t`. -/
theorem C4_registry_construction (kind : Option Derived) (s : Sessions) (e t : Nat) :
    (registryCtor kind s e t).1 e = s e + 1 ∧
    (registryCtor kind s e t).1 = (fun x => if x = e then s x + 1 else s x) ∧
    (registryCtor kind s e t).2.GetType = t := by
  rw [registryCtor_eq]
  exact ⟨by simp, rfl, rfl⟩

/-- C5: copy construction from the live handle `h` at address `p` succeeds.
The new object, at the next free address, has the entity and the tag of `h`;
`h` and every other object are unchanged; the counter of the entity of `h` is
incremented by exactly one when `h` is bound, and no other counter changes;
when `h` is empty the copy is empty and no counter changes. -/
theorem C5_copy_construction (w : World) (p : Nat) (h : FactoryWrapper)
    (hp : w.handle p = some h) :
    ∃ w1, w.step (Op.copyConstruct p) = some w1 ∧
      w1.handle w.objects.length = some h ∧
      (∀ a, a < w.objects.length → w1.handle a = w.handle a) ∧
      (∀ e, w1.sessions e = w.sessions e + (if h.reference = some e then 1 else 0)) ∧
      (h.reference = none → w1.sessions = w.sessions ∧
        (w1.handle w.objects.length).map FactoryWrapper.toBool = some false) := by
  refine ⟨⟨adjust w.sessions h.reference 1, w.objects ++ [some h]⟩, ?_, ?_, ?_, ?_, ?_⟩
  · simp only [World.step, hp, copyCtor_eq]
  · exact getD_append_new _ _
  · intro a ha
    exact getD_append_old _ _ a ha
  · intro e
    by_cases he : h.reference = some e <;> simp [adjust, he]
  · intro hn
    refine ⟨by simp only [hn, adjust_none], ?_⟩
    simp only [World.handle, getD_append_new, Option.map_some', FactoryWrapper.toBool, hn]
    rfl

/-- Copying the bound handle at address 0 of `sampleWorld`. -/
theorem C5_copy_construction_witness :
    sampleWorld.handle 0 = some { reference := some 5, type := ID_ITEM } ∧
    ∃ w1, sampleWorld.step (Op.copyConstruct 0) = some w1 ∧
      w1.handle sampleWorld.objects.length = some { reference := some 5, type := ID_ITEM } ∧
      (∀ a, a < sampleWorld.objects.length → w1.handle a = sampleWorld.handle a) ∧
      (∀ e, w1.sessions e = sampleWorld.sessions e +
        (if (FactoryWrapper.mk (some 5) ID_ITEM).reference = some e then 1 else 0)) ∧
      ((FactoryWrapper.mk (some 5) ID_ITEM).reference = none →
        w1.sessions = sampleWorld.sessions ∧
        (w1.handle sampleWorld.objects.length).map FactoryWrapper.toBool = some false) :=
  ⟨rfl, C5_copy_construction sampleWorld 0 { reference := some 5, type := ID_ITEM } rfl⟩

/-- Move construction of a handle of a class whose base is
`FactoryWrapper<Reference>` (`Reference`, `Object`, `Window`) from the live
handle `h` at address `p` succeeds and changes no in-use counter; the new
object, at the next free address, has the former entity and tag of `h`;
afterwards the object at `p` is empty, with a null entity pointer and the tag
0; every other object is unchanged. -/
theorem move_construction_based_on_reference (w : World) (kind : Option Derived) (p : Nat)
    (h : FactoryWrapper) (hk : basedOnReference kind = true) (hp : w.handle p = some h) :
    ∃ w1, w.step (Op.moveConstruct kind p) = some w1 ∧
      w1.sessions = w.sessions ∧
      w1.handle w.objects.length = some h ∧
      w1.handle p = some { reference := none, type := 0 } ∧
      (∀ a, a < w.objects.length → a ≠ p → w1.handle a = w.handle a) := by
  have hlt := handle_lt_length w p h hp
  refine ⟨⟨w.sessions, w.objects.set p (some ⟨none, 0⟩) ++ [some h]⟩, ?_, rfl, ?_, ?_, ?_⟩
  · simp only [World.step, hp, classMoveCtor_eq, if_pos hk]
  · have := getD_append_new (w.objects.set p (some ⟨none, 0⟩)) (some h)
    rw [List.length_set] at this
    exact this
  · simp only [World.handle]
    rw [getD_append_old _ _ p (by rw [List.length_set]; exact hlt), getD_set_same _ _ _ hlt]
  · intro a ha hap
    simp only [World.handle]
    rw [getD_append_old _ _ a (by rw [List.length_set]; exact ha),
      getD_set_other _ _ _ _ (fun h => hap h.symm)]

/-- Move construction of a handle of one of the seven classes whose base is a
generated class from the live handle `h` at address `p` succeeds and is a
copy: the new object has the entity and tag of `h`, the object at `p` and every
other object are unchanged, and the counter of the entity of `h` is incremented
by one when `h` is bound. -/
theorem move_construction_based_on_generated (w : World) (kind : Option Derived) (p : Nat)
    (h : FactoryWrapper) (hk : basedOnReference kind = false) (hp : w.handle p = some h) :
    ∃ w1, w.step (Op.moveConstruct kind p) = some w1 ∧
      (∀ e, w1.sessions e = w.sessions e + (if h.reference = some e then 1 else 0)) ∧
      w1.handle w.objects.length = some h ∧
      (∀ a, a < w.objects.length → w1.handle a = w.handle a) := by
  have hk1 : ¬ basedOnReference kind = true := by simp [hk]
  refine ⟨⟨adjust w.sessions h.reference 1, w.objects ++ [some h]⟩, ?_, ?_, ?_, ?_⟩
  · simp only [World.step, hp, classMoveCtor_eq, if_neg hk1]
    simp only [set_getD_self _ _ _ hp]
  · intro e
    by_cases he : h.reference = some e <;> simp [adjust, he]
  · exact getD_append_new _ _
  · intro a ha
    exact getD_append_old _ _ a ha

/-- C6 (the code at the failing input): in `sampleWorld` the handle at address
0 is an `Item` handle on entity 5, whose in-use counter is 1.  Move
construction of a `FactoryWrapper<Item>` from it (line 387) initialises the
base `FactoryWrapper<Object>` through the constructor template of line 380 and
ends in the copy constructor: the counter of entity 5 becomes 2 and the source
handle stays bound to entity 5 with its tag.  The same move construction for
the class `Object`, whose base is `FactoryWrapper<Reference>`, leaves the
counter at 1 and empties the source. -/
theorem C6_move_construction_of_item_handle_copies :
    sampleWorld.handle 0 = some { reference := some 5, type := ID_ITEM } ∧
    sampleWorld.sessions 5 = 1 ∧
    (Derived.moveCtor Derived.Item sampleWorld.sessions
      { reference := some 5, type := ID_ITEM }).1 5 = 2 ∧
    (Derived.moveCtor Derived.Item sampleWorld.sessions
      { reference := some 5, type := ID_ITEM }).2
        = ({ reference := some 5, type := ID_ITEM }, { reference := some 5, type := ID_ITEM }) ∧
    (sampleWorld.step (Op.moveConstruct (some Derived.Item) 0)).map
      (fun w => (w.sessions 5, w.handle 0, w.handle 2))
        = some (2, some { reference := some 5, type := ID_ITEM },
            some { reference := some 5, type := ID_ITEM }) ∧
    (Derived.moveCtor Derived.Object sampleWorld.sessions
      { reference := some 5, type := ID_ITEM }).1 5 = 1 ∧
    (Derived.moveCtor Derived.Object sampleWorld.sessions
      { reference := some 5, type := ID_ITEM }).2
        = ({ reference := some 5, type := ID_ITEM }, { reference := none, type := 0 }) := by
  decide


/-- The default call `validate<T>()` tests the recorded tag. -/
theorem validate_default (r : Option Nat) (t : Nat) (T : Derived) :
    (FactoryWrapper.mk r t).validate T 0 = decide ((t &&& T.token) ≠ 0) := by
  simp [FactoryWrapper.validate]

/-- Destroying the live handle `h` at address `a` succeeds and removes the
object; when `h` is bound the in-use counter of its entity is decremented by
exactly one and no other counter changes; when `h` is empty no counter
changes.  The destructor of a default-constructed handle changes no counter,
and so does the destructor of a handle emptied by the move constructor of
`FactoryWrapper<Reference>` or by a move assignment. -/
theorem destruction_effect (w : World) (a : Nat) (h : FactoryWrapper)
    (ha : w.handle a = some h) :
    (∃ w1, w.step (Op.destroy a) = some w1 ∧
      w1.handle a = none ∧
      (∀ e, w1.sessions e = w.sessions e - (if h.reference = some e then 1 else 0)) ∧
      (h.reference = none → w1.sessions = w.sessions)) ∧
    (∀ s, FactoryWrapper.dtor s FactoryWrapper.defaultCtor = s) ∧
    (∀ s q, FactoryWrapper.dtor s (FactoryWrapper.moveCtor q).2 = s) ∧
    (∀ s s1 this self addrP q, this ≠ addrP →
      FactoryWrapper.dtor s (FactoryWrapper.moveAssign s1 this self addrP q).2.2 = s) := by
  have hlt := handle_lt_length w a h ha
  refine ⟨⟨⟨adjust w.sessions h.reference (-1), w.objects.set a none⟩, ?_, ?_, ?_, ?_⟩,
    ?_, ?_, ?_⟩
  · simp only [World.step, ha, dtor_eq]
  · exact getD_set_same _ _ _ hlt
  · intro e
    by_cases he : h.reference = some e <;> simp [adjust, he, sub_eq_add_neg]
  · intro hn
    simp only [hn, adjust_none]
  · intro s
    rfl
  · intro s q
    rfl
  · intro s s1 this self addrP q hne
    rw [moveAssign_eq _ _ _ _ _ hne]
    rfl

/-- C7 (the code at the failing input): in `sampleWorld` the handle at address
0 is an `Item` handle on entity 5, whose in-use counter is 1.  After a
`FactoryWrapper<Item>` has been move-constructed from it (line 387) the counter
is 2 and the moved-from handle at address 0 is still bound; destroying this
moved-from handle changes a counter: the counter of entity 5 goes from 2 to
1. -/
theorem C7_destroying_moved_from_item_handle_decrements :
    sampleWorld.handle 0 = some { reference := some 5, type := ID_ITEM } ∧
    sampleWorld.sessions 5 = 1 ∧
    (sampleWorld.run [Op.moveConstruct (some Derived.Item) 0]).map
      (fun w => (w.sessions 5, w.handle 0))
        = some (2, some { reference := some 5, type := ID_ITEM }) ∧
    (sampleWorld.run [Op.moveConstruct (some Derived.Item) 0, Op.destroy 0]).map
      (fun w => (w.sessions 5, w.handle 0)) = some (1, none) := by
  decide

/-- C8: copy assignment `a = b` between the live handles `x` at address `a` and
`y` at address `b` succeeds.  When the two objects are distinct, the counter of
the old entity of `a` is decremented by one (if `a` was bound) and then the
counter of the entity of `b` is incremented by one (if `b` is bound), no other
counter changes, `a` has the entity and tag of `b`, and `b` and every other
object are unchanged; when both refer to the same entity no counter has changed
overall.  Self-assignment changes neither the handle nor any counter. -/
theorem C8_copy_assignment (w : World) (a b : Nat) (x y : FactoryWrapper)
    (ha : w.handle a = some x) (hb : w.handle b = some y) :
    ∃ w1, w.step (Op.copyAssign a b) = some w1 ∧
      (a ≠ b →
        (∀ e, w1.sessions e = w.sessions e - (if x.reference = some e then 1 else 0)
          + (if y.reference = some e then 1 else 0)) ∧
        w1.handle a = some y ∧ w1.handle b = some y ∧
        (∀ c, c ≠ a → w1.handle c = w.handle c) ∧
        (x.reference = y.reference → w1.sessions = w.sessions)) ∧
      (a = b → w1 = w) := by
  have hlt := handle_lt_length w a x ha
  by_cases hab : a = b
  · subst hab
    refine ⟨w, ?_, fun h => absurd rfl h, fun _ => rfl⟩
    have h1 : w.objects.set a (some x) = w.objects := set_getD_self _ _ _ ha
    simp only [World.step, ha, FactoryWrapper.copyAssign, ne_eq, not_true_eq_false, if_false, h1]
  · refine ⟨⟨adjust (adjust w.sessions x.reference (-1)) y.reference 1,
      w.objects.set a (some y)⟩, ?_, fun _ => ⟨?_, ?_, ?_, ?_, ?_⟩, fun h => absurd h hab⟩
    · simp only [World.step, ha, hb, copyAssign_eq _ _ _ _ _ hab]
    · intro e
      by_cases hx : x.reference = some e <;> by_cases hy : y.reference = some e <;>
        simp [adjust, hx, hy, sub_eq_add_neg]
    · exact getD_set_same _ _ _ hlt
    · simp only [World.handle]
      rw [getD_set_other _ _ _ _ hab]
      exact hb
    · intro c hc
      simp only [World.handle]
      rw [getD_set_other _ _ _ _ (fun h => hc h.symm)]
    · intro hxy
      funext e
      by_cases hy : y.reference = some e <;> simp [adjust, hxy, hy]

/-- In `sampleWorld`, assigning the bound handle at address 0 to the empty
handle at address 1. -/
theorem C8_copy_assignment_witness :
    (sampleWorld.handle 1 = some FactoryWrapper.defaultCtor ∧
      sampleWorld.handle 0 = some { reference := some 5, type := ID_ITEM }) ∧
    ∃ w1, sampleWorld.step (Op.copyAssign 1 0) = some w1 ∧
      (1 ≠ 0 →
        (∀ e, w1.sessions e = sampleWorld.sessions e
          - (if FactoryWrapper.defaultCtor.reference = some e then 1 else 0)
          + (if (FactoryWrapper.mk (some 5) ID_ITEM).reference = some e then 1 else 0)) ∧
        w1.handle 1 = some { reference := some 5, type := ID_ITEM } ∧
        w1.handle 0 = some { reference := some 5, type := ID_ITEM } ∧
        (∀ c, c ≠ 1 → w1.handle c = sampleWorld.handle c) ∧
        (FactoryWrapper.defaultCtor.reference = (FactoryWrapper.mk (some 5) ID_ITEM).reference →
          w1.sessions = sampleWorld.sessions)) ∧
      (1 = 0 → w1 = sampleWorld) :=
  ⟨⟨rfl, rfl⟩, C8_copy_assignment sampleWorld 1 0 FactoryWrapper.defaultCtor
    { reference := some 5, type := ID_ITEM } rfl rfl⟩

/-- C9: for every handle `h` and every class `T`, `validate<T>()` without
argument is true if and only if the bitwise AND of the recorded tag of `h` with
the bit pattern of `T` is not zero, the pattern being `ALL_OBJECTS` (0x3E) for
`Object`, `ID_ITEM` for `Item`, `ID_CONTAINER` for `Container`, `ALL_ACTORS`
(0x30) for `Actor`, `ID_PLAYER` for `Player`, `ALL_WINDOWS` (0x3C0) for
`Window`, `ID_BUTTON` for `Button`, `ID_TEXT` for `Text` and `ID_EDIT` for
`Edit`.  The test is not an equality: the tag 0x3FF differs from every pattern
and validates for every class. -/
theorem C9_validate_is_bitwise_and (h : FactoryWrapper) (T : Derived) :
    (h.validate T 0 = true ↔ h.type &&& T.token ≠ 0) ∧
    (Derived.token Derived.Object = ALL_OBJECTS ∧ ALL_OBJECTS = 0x3E ∧
      Derived.token Derived.Item = ID_ITEM ∧ ID_ITEM = 0x04 ∧
      Derived.token Derived.Container = ID_CONTAINER ∧ ID_CONTAINER = 0x08 ∧
      Derived.token Derived.Actor = ALL_ACTORS ∧ ALL_ACTORS = 0x30 ∧
      Derived.token Derived.Player = ID_PLAYER ∧ ID_PLAYER = 0x20 ∧
      Derived.token Derived.Window = ALL_WINDOWS ∧ ALL_WINDOWS = 0x3C0 ∧
      Derived.token Derived.Button = ID_BUTTON ∧ ID_BUTTON = 0x80 ∧
      Derived.token Derived.Text = ID_TEXT ∧ ID_TEXT = 0x100 ∧
      Derived.token Derived.Edit = ID_EDIT ∧ ID_EDIT = 0x200) ∧
    ((FactoryWrapper.mk h.reference 0x3FF).validate T 0 = true ∧ 0x3FF ≠ T.token) := by
  refine ⟨?_, by decide, ?_⟩
  · simp [FactoryWrapper.validate]
  · rw [validate_default]
    cases T <;> exact ⟨by decide, by decide⟩

/-- C10: for every class `T`, a handle whose tag is the concrete tag `ID_T` of
`T` satisfies `validate<T>()`; and for every pair of unrelated sibling classes
`A`, `B` (`Item` and `Container`; a class of the `Object` family and a class of
the `Window` family; two different classes among `Button`, `Text`, `Edit`) a
handle whose tag is `ID_A` fails `validate<B>()`. -/
theorem C10_validate_own_tag_and_siblings :
    (∀ (T : Derived) (r : Option Nat),
      (FactoryWrapper.mk r T.id).validate T 0 = true) ∧
    (∀ (A B : Derived) (r : Option Nat), A.unrelated B = true →
      (FactoryWrapper.mk r A.id).validate B 0 = false) := by
  refine ⟨?_, ?_⟩
  · intro T r
    rw [validate_default]
    cases T <;> decide
  · intro A B r hAB
    rw [validate_default]
    cases A <;> cases B <;> first | decide | exact absurd hAB (by decide)

/-- An `Item` tag fails `validate<Container>()`, a `Player` tag fails
`validate<Window>()` and a `Button` tag fails `validate<Edit>()`; a `Player`
tag satisfies `validate<Player>()`. -/
theorem C10_validate_own_tag_and_siblings_witness :
    Derived.unrelated Derived.Item Derived.Container = true ∧
    (FactoryWrapper.mk (some 1) ID_ITEM).validate Derived.Container 0 = false ∧
    (FactoryWrapper.mk (some 1) ID_PLAYER).validate Derived.Window 0 = false ∧
    (FactoryWrapper.mk (some 1) ID_BUTTON).validate Derived.Edit 0 = false ∧
    (FactoryWrapper.mk (some 1) ID_PLAYER).validate Derived.Player 0 = true :=
  ⟨by decide,
    C10_validate_own_tag_and_siblings.2 Derived.Item Derived.Container (some 1) (by decide),
    C10_validate_own_tag_and_siblings.2 Derived.Player Derived.Window (some 1) (by decide),
    C10_validate_own_tag_and_siblings.2 Derived.Button Derived.Edit (some 1) (by decide),
    C10_validate_own_tag_and_siblings.1 Derived.Player (some 1)⟩

/-! ## vaultcast in closed form -/

theorem derived_copyCtor_eq (T : Derived) (s : Sessions) (p : FactoryWrapper) :
    T.copyCtor s p = (adjust s p.reference 1, p) := by
  cases T <;>
    simp only [Derived.copyCtor, FactoryObject.copyCtor, FactoryItem.copyCtor,
      FactoryContainer.copyCtor, FactoryActor.copyCtor, FactoryPlayer.copyCtor,
      FactoryWindow.copyCtor, FactoryButton.copyCtor, FactoryText.copyCtor,
      FactoryEdit.copyCtor, GF_TYPE_WRAPPER.copyCtor, copyCtor_eq]

theorem adjust_cancel (s : Sessions) (r : Option Nat) :
    adjust (adjust s r 1) r (-1) = s := by
  funext e
  by_cases h : r = some e <;> simp [adjust, h]

/-- A handle moved into the returned `Expected` and a handle copied into it
leave the same counters once the local has been destroyed. -/
theorem return_by_copy_eq_by_move (s : Sessions) (result : FactoryWrapper) :
    (FactoryWrapper.dtor (FactoryWrapper.copyCtor s result).1 result,
        (FactoryWrapper.copyCtor s result).2)
      = (FactoryWrapper.dtor s (FactoryWrapper.moveCtor result).2,
        (FactoryWrapper.moveCtor result).1) := by
  simp only [copyCtor_eq, dtor_eq, adjust_cancel, FactoryWrapper.moveCtor, adjust_none]

theorem vaultcast_eq (T : Derived) (s : Sessions) (h : FactoryWrapper) :
    vaultcast T s h
      = if h.validate T 0 = true then (adjust s h.reference 1, Expected.value h)
        else (s, Expected.exception { message := "vaultcast failed" }) := by
  simp only [vaultcast, derived_copyCtor_eq, FactoryWrapper.moveCtor, dtor_eq, adjust_none,
    adjust_cancel]

theorem validate_default_iff (h : FactoryWrapper) (T : Derived) :
    h.validate T 0 = true ↔ h.type &&& T.token ≠ 0 := by
  simp [FactoryWrapper.validate]

theorem vaultcastRest_value (Ts : List Derived) (s s1 : Sessions)
    (cur : Expected FactoryWrapper) (h1 : FactoryWrapper)
    (hr : vaultcastRest Ts s cur = some (s1, Expected.value h1)) :
    cur = Expected.value h1 ∧ ∀ T ∈ Ts, h1.type &&& T.token ≠ 0 := by
  induction Ts generalizing s s1 cur with
  | nil =>
    simp only [vaultcastRest, Option.some.injEq, Prod.mk.injEq] at hr
    exact ⟨hr.2, fun T hT => absurd hT (List.not_mem_nil T)⟩
  | cons T Ts ih =>
    cases cur with
    | exception e => simp [vaultcastRest, vaultcastExpected, Expected.get] at hr
    | value h =>
      simp only [vaultcastRest, vaultcastExpected, Expected.get] at hr
      cases hq : vaultcastRest Ts (vaultcast T s h).1 (vaultcast T s h).2 with
      | none => simp [hq] at hr
      | some q =>
        simp only [hq, Option.some.injEq, Prod.mk.injEq] at hr
        have hq2 : vaultcastRest Ts (vaultcast T s h).1 (vaultcast T s h).2
            = some (q.1, Expected.value h1) := by rw [hq, ← hr.2]
        obtain ⟨hv, hall⟩ := ih _ _ _ hq2
        rw [vaultcast_eq] at hv
        by_cases hval : h.validate T 0 = true
        · simp only [hval, if_true, Expected.value.injEq] at hv
          subst hv
          refine ⟨rfl, ?_⟩
          intro T1 hT1
          rcases List.mem_cons.mp hT1 with rfl | hmem
          · exact (validate_default_iff h T1).mp hval
          · exact hall T1 hmem
        · simp [hval] at hv


/-- If the tag satisfies the pattern `a` and every bit of `a` is in `m`, the
tag satisfies `m`. -/
theorem land_ne_zero_of_submask (t a m : Nat) (ham : a &&& m = a) (hta : t &&& a ≠ 0) :
    t &&& m ≠ 0 := by
  intro h0
  apply hta
  rw [← ham, Nat.land_comm a m, ← Nat.land_assoc, h0]
  simp

/-- Apart from `Actor` below `Container`, the capability test is monotone
along every `(derived, base)` pair declared by `GF_TYPE_WRAPPER`, for every
handle. -/
theorem validate_monotone_except_container (d b : Derived) (h : FactoryWrapper)
    (hb : d.base = some b) (hne : d ≠ Derived.Actor)
    (hv : h.validate d 0 = true) : h.validate b 0 = true := by
  rw [validate_default_iff] at hv ⊢
  cases d <;> simp only [Derived.base, Option.some.injEq, reduceCtorEq] at hb
  · subst hb; exact land_ne_zero_of_submask _ _ _ (by decide) hv
  · subst hb; exact land_ne_zero_of_submask _ _ _ (by decide) hv
  · exact absurd rfl hne
  · subst hb; exact land_ne_zero_of_submask _ _ _ (by decide) hv
  · subst hb; exact land_ne_zero_of_submask _ _ _ (by decide) hv
  · subst hb; exact land_ne_zero_of_submask _ _ _ (by decide) hv
  · subst hb; exact land_ne_zero_of_submask _ _ _ (by decide) hv

/-! ## The claims on casts and tags -/

/-- C11: for every target class `T` and every handle `h`, of whatever class,
`vaultcast<T>(h)` returns a handle if and only if the tag of `h` satisfies the
bit pattern of `T` (tag AND pattern not zero); the handle returned has the
entity and the tag of `h`; otherwise the result is an error that carries no
handle. -/
theorem C11_vaultcast_succeeds_iff_tag_matches (T : Derived) (s : Sessions)
    (h : FactoryWrapper) :
    ((∃ h1, (vaultcast T s h).2 = Expected.value h1) ↔ h.type &&& T.token ≠ 0) ∧
    (h.type &&& T.token ≠ 0 → (vaultcast T s h).2 = Expected.value h) ∧
    (h.type &&& T.token = 0 →
      (vaultcast T s h).2 = Expected.exception { message := "vaultcast failed" } ∧
      (vaultcast T s h).2.toBool = false) := by
  rw [vaultcast_eq]
  by_cases hv : h.validate T 0 = true
  · have ht := (validate_default_iff h T).mp hv
    rw [if_pos hv]
    exact ⟨⟨fun _ => ht, fun _ => ⟨h, rfl⟩⟩, fun _ => rfl, fun h0 => absurd h0 ht⟩
  · have ht : h.type &&& T.token = 0 := by
      by_contra hne
      exact hv ((validate_default_iff h T).mpr hne)
    rw [if_neg hv]
    refine ⟨⟨?_, fun hne => absurd ht hne⟩, fun hne => absurd ht hne, fun _ => ⟨rfl, rfl⟩⟩
    rintro ⟨h1, heq⟩
    cases heq

/-- A `Player` handle on entity 5 casts to `Actor`; casting it to `Item`
gives the error. -/
theorem C11_vaultcast_succeeds_iff_tag_matches_witness :
    (ID_PLAYER &&& Derived.token Derived.Actor ≠ 0 ∧
      ID_PLAYER &&& Derived.token Derived.Item = 0) ∧
    (vaultcast Derived.Actor (fun _ => 0) { reference := some 5, type := ID_PLAYER }).2
      = Expected.value { reference := some 5, type := ID_PLAYER } ∧
    (vaultcast Derived.Item (fun _ => 0) { reference := some 5, type := ID_PLAYER }).2
      = Expected.exception { message := "vaultcast failed" } :=
  ⟨⟨by decide, by decide⟩,
    (C11_vaultcast_succeeds_iff_tag_matches Derived.Actor (fun _ => 0)
      { reference := some 5, type := ID_PLAYER }).2.1 (by decide),
    ((C11_vaultcast_succeeds_iff_tag_matches Derived.Item (fun _ => 0)
      { reference := some 5, type := ID_PLAYER }).2.2 (by decide)).1⟩

/-- C12: if the nested cast `vaultcast<Tn>(... vaultcast<T1>(h) ...)` succeeds
at every step, that is, it returns a handle `h1`, then `h1` has the entity and
the tag of `h`, and the tag of `h` satisfies the bit pattern of every class of
the chain, the last one included. -/
theorem C12_cast_chain_checks_every_pattern (T1 : Derived) (Ts : List Derived)
    (s s1 : Sessions) (h h1 : FactoryWrapper)
    (hc : vaultcastChain T1 Ts s h = some (s1, Expected.value h1)) :
    h1.reference = h.reference ∧ h1.type = h.type ∧
      ∀ T ∈ T1 :: Ts, h.type &&& T.token ≠ 0 := by
  obtain ⟨hv, hall⟩ := vaultcastRest_value Ts _ s1 _ h1 hc
  rw [vaultcast_eq] at hv
  by_cases hval : h.validate T1 0 = true
  · simp only [hval, if_true, Expected.value.injEq] at hv
    subst hv
    refine ⟨rfl, rfl, ?_⟩
    intro T hT
    rcases List.mem_cons.mp hT with rfl | hmem
    · exact (validate_default_iff h T).mp hval
    · exact hall T hmem
  · simp [hval] at hv

theorem sample_chain :
    vaultcastChain Derived.Object [Derived.Actor, Derived.Player] (fun _ => 0)
        { reference := some 5, type := ID_PLAYER }
      = some (adjust (fun _ => 0) (some 5) 1,
          Expected.value { reference := some 5, type := ID_PLAYER }) := by
  have hO : (FactoryWrapper.mk (some 5) ID_PLAYER).validate Derived.Object 0 = true := by decide
  have hA : (FactoryWrapper.mk (some 5) ID_PLAYER).validate Derived.Actor 0 = true := by decide
  have hP : (FactoryWrapper.mk (some 5) ID_PLAYER).validate Derived.Player 0 = true := by decide
  simp only [vaultcastChain, vaultcastRest, vaultcastExpected, Expected.get, vaultcast_eq, hO,
    hA, hP, if_true, Expected.dtor, dtor_eq, adjust_cancel]

/-- A `Player` handle cast to `Object`, then to `Actor`, then to `Player`. -/
theorem C12_cast_chain_checks_every_pattern_witness :
    vaultcastChain Derived.Object [Derived.Actor, Derived.Player] (fun _ => 0)
        { reference := some 5, type := ID_PLAYER }
      = some (adjust (fun _ => 0) (some 5) 1,
          Expected.value { reference := some 5, type := ID_PLAYER }) ∧
    ((FactoryWrapper.mk (some 5) ID_PLAYER).reference
        = (FactoryWrapper.mk (some 5) ID_PLAYER).reference ∧
      (FactoryWrapper.mk (some 5) ID_PLAYER).type = (FactoryWrapper.mk (some 5) ID_PLAYER).type ∧
      ∀ T ∈ [Derived.Object, Derived.Actor, Derived.Player],
        (FactoryWrapper.mk (some 5) ID_PLAYER).type &&& T.token ≠ 0) :=
  ⟨sample_chain,
    C12_cast_chain_checks_every_pattern Derived.Object [Derived.Actor, Derived.Player]
      (fun _ => 0) (adjust (fun _ => 0) (some 5) 1) { reference := some 5, type := ID_PLAYER }
      { reference := some 5, type := ID_PLAYER } sample_chain⟩

/-- C13 (the code at the failing input): `GF_TYPE_WRAPPER(Actor, Container,
ALL_ACTORS)` declares `Container` as the base of `Actor`, and yet a handle
whose tag is `ID_ACTOR` satisfies `validate<Actor>()` and fails
`validate<Container>()`; likewise a handle whose tag is `ID_PLAYER` satisfies
`validate<Player>()` and `validate<Actor>()` and fails `validate<Container>()`.
The pattern of `Container` is the single bit `ID_CONTAINER`; both tags satisfy
the group mask `ALL_CONTAINERS`. -/
theorem C13_actor_tag_fails_validate_container :
    Derived.base Derived.Actor = some Derived.Container ∧
    (FactoryWrapper.mk (some 7) ID_ACTOR).validate Derived.Actor 0 = true ∧
    (FactoryWrapper.mk (some 7) ID_ACTOR).validate Derived.Container 0 = false ∧
    (FactoryWrapper.mk (some 7) ID_PLAYER).validate Derived.Player 0 = true ∧
    (FactoryWrapper.mk (some 7) ID_PLAYER).validate Derived.Actor 0 = true ∧
    (FactoryWrapper.mk (some 7) ID_PLAYER).validate Derived.Container 0 = false ∧
    Derived.token Derived.Container = ID_CONTAINER ∧
    satisfies ID_ACTOR ALL_CONTAINERS = true ∧ satisfies ID_PLAYER ALL_CONTAINERS = true := by
  decide

/-- C14 (counterexample): `ID_PLAYER` does not contain the bit of its ancestor
`ID_ACTOR`: the bitwise AND of the two is 0 and not `ID_ACTOR`. -/
theorem C14_player_tag_lacks_actor_bit :
    ID_ACTOR &&& ID_PLAYER = 0 ∧ ID_ACTOR &&& ID_PLAYER ≠ ID_ACTOR ∧
    strictSubmask ID_ACTOR ID_PLAYER = false := by
  decide

/-- C14 (amended): no tag constant contains the bits of the tag constant of an
ancestor: for every (ancestor, descendant) pair of the hierarchy the bitwise
AND of the two tag constants is 0.  The ancestor relation is carried by the
group masks instead: each of `ALL_OBJECTS`, `ALL_CONTAINERS`, `ALL_ACTORS` and
`ALL_WINDOWS` is a strict bitwise superset of the tag constant of its own
category and of every descendant category. -/
theorem C14_tags_disjoint_masks_are_supersets :
    ancestorTagPairs.all (fun p => p.1 &&& p.2 == 0 && !strictSubmask p.1 p.2) = true ∧
    groupMaskPairs.all (fun p => strictSubmask p.1 p.2) = true ∧
    ancestorTagPairs.length = 19 ∧ groupMaskPairs.length = 14 := by
  decide

/-- C15 (counterexample): the tag `ID_PLAYER` does not satisfy the mask
`ID_REFERENCE`: their bitwise AND is zero. -/
theorem C15_player_tag_fails_reference_mask :
    ID_PLAYER &&& ID_REFERENCE = 0 ∧ satisfies ID_PLAYER ID_REFERENCE = false := by
  decide

/-- C15 (amended): the tag `ID_PLAYER` satisfies, by a bitwise AND that is not
zero, the masks `ID_PLAYER`, `ALL_ACTORS`, `ALL_CONTAINERS` and `ALL_OBJECTS`;
it satisfies neither `ID_REFERENCE` nor the pure `Item` mask `ID_ITEM`. -/
theorem C15_player_tag_masks :
    satisfies ID_PLAYER ID_PLAYER = true ∧ satisfies ID_PLAYER ALL_ACTORS = true ∧
    satisfies ID_PLAYER ALL_CONTAINERS = true ∧ satisfies ID_PLAYER ALL_OBJECTS = true ∧
    satisfies ID_PLAYER ID_REFERENCE = false ∧ satisfies ID_PLAYER ID_ITEM = false := by
  decide

/-- C16: the ten category constants are, in the order of their declaration,
the single-bit values 2^0, ..., 2^9; the bitwise AND of any two different
constants is 0. -/
theorem C16_tag_constants_are_single_bits :
    tagConstants = (List.range 10).map (fun i => 2 ^ i) ∧
    (ID_REFERENCE = 2 ^ 0 ∧ ID_OBJECT = 2 ^ 1 ∧ ID_ITEM = 2 ^ 2 ∧ ID_CONTAINER = 2 ^ 3 ∧
      ID_ACTOR = 2 ^ 4 ∧ ID_PLAYER = 2 ^ 5 ∧ ID_WINDOW = 2 ^ 6 ∧ ID_BUTTON = 2 ^ 7 ∧
      ID_TEXT = 2 ^ 8 ∧ ID_EDIT = 2 ^ 9) ∧
    tagConstants.all (fun a => tagConstants.all (fun b => a == b || a &&& b == 0)) = true ∧
    tagConstants.Nodup := by
  decide


/-! ## The claims on the dispatch layer -/

/-- C17: under `FailPolicy::Return`, for every id and every function: when the
lookup fails, `Operate` returns false and the function is not invoked: the call
list is unchanged and the final state is the state after the lookup and the
destruction of the local result.  When the lookup succeeds with the handle `h`,
the function is invoked exactly once, on `h`: the call list grows by `h` and
the final state is the state the function leaves from the state after the
lookup, followed by the destruction of the local result; `Operate` returns
true whatever value the function returns, and raises what the function
raises. -/
theorem C17_operate_return_policy {σ I H R : Type} (GetObject : I → σ → Expected H × σ)
    (destroy : Expected H → σ → σ) (id : I)
    (function : H → σ → Except VaultException R × H × σ) (m : Run σ H) :
    (∀ e, (GetObject id m.state).1 = Expected.exception e →
      (OperateFunctions.Return GetObject destroy id function m).1 = Except.ok false ∧
      (OperateFunctions.Return GetObject destroy id function m).2.calls = m.calls ∧
      (OperateFunctions.Return GetObject destroy id function m).2.state
        = destroy (Expected.exception e) (GetObject id m.state).2) ∧
    (∀ h, (GetObject id m.state).1 = Expected.value h →
      (OperateFunctions.Return GetObject destroy id function m).2.calls = m.calls ++ [h] ∧
      (OperateFunctions.Return GetObject destroy id function m).2.state
        = destroy (Expected.value (function h (GetObject id m.state).2).2.1)
            (function h (GetObject id m.state).2).2.2 ∧
      (∀ r, (function h (GetObject id m.state).2).1 = Except.ok r →
        (OperateFunctions.Return GetObject destroy id function m).1 = Except.ok true) ∧
      (∀ e, (function h (GetObject id m.state).2).1 = Except.error e →
        (OperateFunctions.Return GetObject destroy id function m).1 = Except.error e)) := by
  refine ⟨?_, ?_⟩
  · intro e he
    simp [OperateFunctions.Return, he, Expected.toBool]
  · intro h hh
    refine ⟨?_, ?_, ?_, ?_⟩
    · simp only [OperateFunctions.Return, hh, Expected.toBool, Expected.get, invoke]
      cases (function h (GetObject id m.state).2).1 <;> simp
    · simp only [OperateFunctions.Return, hh, Expected.toBool, Expected.get, invoke]
      cases (function h (GetObject id m.state).2).1 <;> simp
    · intro r hr
      simp [OperateFunctions.Return, hh, Expected.toBool, Expected.get, invoke, hr]
    · intro e he
      simp [OperateFunctions.Return, hh, Expected.toBool, Expected.get, invoke, he]

/-- With `sampleGetObject`, the id 1 resolves and the id 2 does not; the state
is the in-use counter of entity 5, which the lookup raises to 1 and the
destruction of the local result brings back to 0. -/
theorem C17_operate_return_policy_witness :
    ((sampleGetObject 2 0).1 = Expected.exception { message := "unknown object" } ∧
      (sampleGetObject 1 0).1 = Expected.value { reference := some 5, type := ID_PLAYER }) ∧
    ((OperateFunctions.Return sampleGetObject sampleDestroy 2 sampleFunction
        { state := 0, calls := [] }).1 = Except.ok false ∧
      (OperateFunctions.Return sampleGetObject sampleDestroy 2 sampleFunction
        { state := 0, calls := [] }).2.calls = [] ∧
      (OperateFunctions.Return sampleGetObject sampleDestroy 2 sampleFunction
        { state := 0, calls := [] }).2.state
          = sampleDestroy (Expected.exception { message := "unknown object" })
              (sampleGetObject 2 0).2) ∧
    ((OperateFunctions.Return sampleGetObject sampleDestroy 1 sampleFunction
        { state := 0, calls := [] }).2.calls
          = [] ++ [{ reference := some 5, type := ID_PLAYER }] ∧
      (OperateFunctions.Return sampleGetObject sampleDestroy 1 sampleFunction
        { state := 0, calls := [] }).2.state
          = sampleDestroy
              (Expected.value (sampleFunction { reference := some 5, type := ID_PLAYER }
                (sampleGetObject 1 0).2).2.1)
              (sampleFunction { reference := some 5, type := ID_PLAYER }
                (sampleGetObject 1 0).2).2.2 ∧
      (OperateFunctions.Return sampleGetObject sampleDestroy 1 sampleFunction
        { state := 0, calls := [] }).1 = Except.ok true) ∧
    (OperateFunctions.Return sampleGetObject sampleDestroy 1 sampleFunction
      { state := 0, calls := [] }).2.state = 0 :=
  ⟨⟨rfl, rfl⟩,
    (C17_operate_return_policy sampleGetObject sampleDestroy 2 sampleFunction
      { state := 0, calls := [] }).1 _ rfl,
    ⟨((C17_operate_return_policy sampleGetObject sampleDestroy 1 sampleFunction
        { state := 0, calls := [] }).2 _ rfl).1,
      ((C17_operate_return_policy sampleGetObject sampleDestroy 1 sampleFunction
        { state := 0, calls := [] }).2 _ rfl).2.1,
      ((C17_operate_return_policy sampleGetObject sampleDestroy 1 sampleFunction
        { state := 0, calls := [] }).2 _ rfl).2.2.1 ID_PLAYER rfl⟩,
    rfl⟩

/-- C18 (counterexample): under `FailPolicy::Exception`, with a lookup that
fails (the id 2 is unknown to `sampleGetObject`), `Operate` raises the lookup
error and the function has not been invoked at all. -/
theorem C18_failed_lookup_skips_function :
    (sampleGetObject 2 0).1 = Expected.exception { message := "unknown object" } ∧
    (OperateFunctions.Exception sampleGetObject sampleDestroy 2 sampleFunction
      { state := 0, calls := [] }).1 = Except.error { message := "unknown object" } ∧
    (OperateFunctions.Exception sampleGetObject sampleDestroy 2 sampleFunction
      { state := 0, calls := [] }).2.calls = [] :=
  ⟨rfl, rfl, rfl⟩

/-- C18 (amended): under `FailPolicy::Exception`, for every id and every
function: when the lookup succeeds with the handle `h`, the function is invoked
exactly once, on `h`, and `Operate` returns or raises what the function returns
or raises; when the lookup fails, `reference.get()` raises the lookup error
inside `Operate`, before the function is entered, and the function is not
invoked.  In both cases the final state is the state after the lookup, after
the function if it was invoked, and after the destruction of the local
result. -/
theorem C18_operate_exception_policy {σ I H R : Type} (GetObject : I → σ → Expected H × σ)
    (destroy : Expected H → σ → σ) (id : I)
    (function : H → σ → Except VaultException R × H × σ) (m : Run σ H) :
    (∀ e, (GetObject id m.state).1 = Expected.exception e →
      (OperateFunctions.Exception GetObject destroy id function m).1 = Except.error e ∧
      (OperateFunctions.Exception GetObject destroy id function m).2.calls = m.calls ∧
      (OperateFunctions.Exception GetObject destroy id function m).2.state
        = destroy (Expected.exception e) (GetObject id m.state).2) ∧
    (∀ h, (GetObject id m.state).1 = Expected.value h →
      (OperateFunctions.Exception GetObject destroy id function m).2.calls = m.calls ++ [h] ∧
      (OperateFunctions.Exception GetObject destroy id function m).1
        = (function h (GetObject id m.state).2).1 ∧
      (OperateFunctions.Exception GetObject destroy id function m).2.state
        = destroy (Expected.value (function h (GetObject id m.state).2).2.1)
            (function h (GetObject id m.state).2).2.2) := by
  refine ⟨?_, ?_⟩
  · intro e he
    simp [OperateFunctions.Exception, he, Expected.get]
  · intro h hh
    simp [OperateFunctions.Exception, hh, Expected.get, invoke]

/-- With `sampleGetObject`, the id 1 resolves and the id 2 does not. -/
theorem C18_operate_exception_policy_witness :
    ((sampleGetObject 2 0).1 = Expected.exception { message := "unknown object" } ∧
      (sampleGetObject 1 0).1 = Expected.value { reference := some 5, type := ID_PLAYER }) ∧
    ((OperateFunctions.Exception sampleGetObject sampleDestroy 2 sampleFunction
        { state := 0, calls := [] }).1 = Except.error { message := "unknown object" } ∧
      (OperateFunctions.Exception sampleGetObject sampleDestroy 2 sampleFunction
        { state := 0, calls := [] }).2.calls = [] ∧
      (OperateFunctions.Exception sampleGetObject sampleDestroy 2 sampleFunction
        { state := 0, calls := [] }).2.state
          = sampleDestroy (Expected.exception { message := "unknown object" })
              (sampleGetObject 2 0).2) ∧
    ((OperateFunctions.Exception sampleGetObject sampleDestroy 1 sampleFunction
        { state := 0, calls := [] }).2.calls
          = [] ++ [{ reference := some 5, type := ID_PLAYER }] ∧
      (OperateFunctions.Exception sampleGetObject sampleDestroy 1 sampleFunction
        { state := 0, calls := [] }).1
          = (sampleFunction { reference := some 5, type := ID_PLAYER }
              (sampleGetObject 1 0).2).1 ∧
      (OperateFunctions.Exception sampleGetObject sampleDestroy 1 sampleFunction
        { state := 0, calls := [] }).2.state
          = sampleDestroy
              (Expected.value (sampleFunction { reference := some 5, type := ID_PLAYER }
                (sampleGetObject 1 0).2).2.1)
              (sampleFunction { reference := some 5, type := ID_PLAYER }
                (sampleGetObject 1 0).2).2.2) :=
  ⟨⟨rfl, rfl⟩,
    (C18_operate_exception_policy sampleGetObject sampleDestroy 2 sampleFunction
      { state := 0, calls := [] }).1 _ rfl,
    (C18_operate_exception_policy sampleGetObject sampleDestroy 1 sampleFunction
      { state := 0, calls := [] }).2 _ rfl⟩

/-- C19: under `FailPolicy::None`, for every id and every function, `Operate`
invokes the function exactly once, with the fallible lookup result itself,
whether a handle is present in it or not, and returns (or raises) exactly what
the function returns (or raises); the final state is the state the function
leaves from the state after the lookup, followed by the destruction of the
local result. -/
theorem C19_operate_none_policy {σ I H R : Type} (GetObject : I → σ → Expected H × σ)
    (destroy : Expected H → σ → σ) (id : I)
    (function : Expected H → σ → Except VaultException R × Expected H × σ)
    (m : Run σ (Expected H)) :
    (OperateFunctions.None GetObject destroy id function m).2.calls
      = m.calls ++ [(GetObject id m.state).1] ∧
    (OperateFunctions.None GetObject destroy id function m).1
      = (function (GetObject id m.state).1 (GetObject id m.state).2).1 ∧
    (OperateFunctions.None sampleGetObject sampleDestroy 2 sampleFunctionExpected
      { state := 0, calls := [] }).1 = Except.ok (0 : Nat) ∧
    (OperateFunctions.None sampleGetObject sampleDestroy 1 sampleFunctionExpected
      { state := 0, calls := [] }).1 = Except.ok (1 : Nat) ∧
    (OperateFunctions.None GetObject destroy id function m).2.state
      = destroy (function (GetObject id m.state).1 (GetObject id m.state).2).2.1
          (function (GetObject id m.state).1 (GetObject id m.state).2).2.2 :=
  ⟨rfl, rfl, rfl, rfl, rfl⟩

/-- C20: for every list of ids, `GetMultiple<T>` returns a list of the same
length whose i-th element is the result of resolving the i-th id on its own,
whatever ids stand before and after it: a handle when that id resolves, an
error when it does not.  With the id 2 unknown, the ids 1, 2, 3 give a handle,
an error and a handle. -/
theorem C20_get_multiple_elementwise {I H : Type} (GetObject : I → Expected H)
    (objects : List I) :
    (GetMultiple GetObject objects).length = objects.length ∧
    (∀ i : Nat, (GetMultiple GetObject objects)[i]? = objects[i]?.map GetObject) ∧
    (∀ (before after : List I) (id : I),
      (GetMultiple GetObject (before ++ id :: after))[before.length]? = some (GetObject id)) ∧
    GetMultiple sampleResolve [1, 2, 3]
      = [Expected.value { reference := some 5, type := ID_PLAYER },
         Expected.exception { message := "unknown object" },
         Expected.value { reference := some 6, type := ID_ITEM }] := by
  refine ⟨?_, ?_, ?_, ?_⟩
  · simp [GetMultiple]
  · intro i
    simp [GetMultiple]
  · intro before after id
    rw [GetMultiple, List.map_append, List.map_cons,
      List.getElem?_append_right (by simp)]
    simp
  · decide

/-! ## The remaining claims on handles -/

/-- C22: move assignment `a = std::move(b)` between the live handles `x` at
address `a` and `y` at address `b` succeeds.  When the two objects are
distinct, the counter of the old entity of `a` is decremented by one (if `a`
was bound) and no counter is incremented, `a` has the entity and tag of `b`,
`b` is left empty, with a null entity pointer and the tag 0, and every other
object is unchanged.  Self move-assignment changes neither the handle nor any
counter. -/
theorem C22_move_assignment (w : World) (a b : Nat) (x y : FactoryWrapper)
    (ha : w.handle a = some x) (hb : w.handle b = some y) :
    ∃ w1, w.step (Op.moveAssign a b) = some w1 ∧
      (a ≠ b →
        (∀ e, w1.sessions e = w.sessions e - (if x.reference = some e then 1 else 0)) ∧
        w1.handle a = some y ∧ w1.handle b = some { reference := none, type := 0 } ∧
        (∀ c, c ≠ a → c ≠ b → w1.handle c = w.handle c)) ∧
      (a = b → w1 = w) := by
  have hlta := handle_lt_length w a x ha
  have hltb := handle_lt_length w b y hb
  by_cases hab : a = b
  · subst hab
    have hxy : x = y := by rw [ha] at hb; exact Option.some.inj hb
    subst hxy
    refine ⟨w, ?_, fun h => absurd rfl h, fun _ => rfl⟩
    have h1 : w.objects.set a (some x) = w.objects := set_getD_self _ _ _ ha
    simp only [World.step, ha, FactoryWrapper.moveAssign, ne_eq, not_true_eq_false, if_false, h1]
  · refine ⟨⟨adjust w.sessions x.reference (-1),
      (w.objects.set b (some ⟨none, 0⟩)).set a (some y)⟩, ?_,
      fun _ => ⟨?_, ?_, ?_, ?_⟩, fun h => absurd h hab⟩
    · simp only [World.step, ha, hb, moveAssign_eq _ _ _ _ _ hab]
    · intro e
      by_cases hx : x.reference = some e <;> simp [adjust, hx, sub_eq_add_neg]
    · exact getD_set_same _ _ _ (by rw [List.length_set]; exact hlta)
    · simp only [World.handle]
      rw [getD_set_other _ _ _ _ hab, getD_set_same _ _ _ hltb]
    · intro c hca hcb
      simp only [World.handle]
      rw [getD_set_other _ _ _ _ (fun h => hca h.symm),
        getD_set_other _ _ _ _ (fun h => hcb h.symm)]

/-- In `sampleWorld`, moving the bound handle at address 0 into the empty
handle at address 1. -/
theorem C22_move_assignment_witness :
    (sampleWorld.handle 1 = some FactoryWrapper.defaultCtor ∧
      sampleWorld.handle 0 = some { reference := some 5, type := ID_ITEM }) ∧
    ∃ w1, sampleWorld.step (Op.moveAssign 1 0) = some w1 ∧
      (1 ≠ 0 →
        (∀ e, w1.sessions e = sampleWorld.sessions e
          - (if FactoryWrapper.defaultCtor.reference = some e then 1 else 0)) ∧
        w1.handle 1 = some { reference := some 5, type := ID_ITEM } ∧
        w1.handle 0 = some { reference := none, type := 0 } ∧
        (∀ c, c ≠ 1 → c ≠ 0 → w1.handle c = sampleWorld.handle c)) ∧
      (1 = 0 → w1 = sampleWorld) :=
  ⟨⟨rfl, rfl⟩, C22_move_assignment sampleWorld 1 0 FactoryWrapper.defaultCtor
    { reference := some 5, type := ID_ITEM } rfl rfl⟩

/-- C23: sibling categories use disjoint bits: `ID_ITEM AND ID_CONTAINER = 0`,
`ID_BUTTON`, `ID_TEXT` and `ID_EDIT` are pairwise disjoint, and
`ALL_OBJECTS AND ALL_WINDOWS = 0`.  Hence for a handle, with whatever entity
pointer, whose tag is one of the ten `ID_*` constants, `validate<Object>()` and
`validate<Window>()` are not both true, `validate<Item>()` and
`validate<Container>()` are not both true, and at most one of
`validate<Button>()`, `validate<Text>()` and `validate<Edit>()` is true. -/
theorem C23_sibling_categories_disjoint (r : Option Nat) :
    (ID_ITEM &&& ID_CONTAINER = 0 ∧ ID_BUTTON &&& ID_TEXT = 0 ∧ ID_BUTTON &&& ID_EDIT = 0 ∧
      ID_TEXT &&& ID_EDIT = 0 ∧ ALL_OBJECTS &&& ALL_WINDOWS = 0) ∧
    tagConstants.all (fun t =>
      !((FactoryWrapper.mk r t).validate Derived.Object 0 &&
        (FactoryWrapper.mk r t).validate Derived.Window 0) &&
      !((FactoryWrapper.mk r t).validate Derived.Item 0 &&
        (FactoryWrapper.mk r t).validate Derived.Container 0) &&
      !((FactoryWrapper.mk r t).validate Derived.Button 0 &&
        (FactoryWrapper.mk r t).validate Derived.Text 0) &&
      !((FactoryWrapper.mk r t).validate Derived.Button 0 &&
        (FactoryWrapper.mk r t).validate Derived.Edit 0) &&
      !((FactoryWrapper.mk r t).validate Derived.Text 0 &&
        (FactoryWrapper.mk r t).validate Derived.Edit 0)) = true := by
  refine ⟨by decide, ?_⟩
  simp only [validate_default]
  decide


theorem handle_mem (w : World) (a : Nat) (h : FactoryWrapper) (ha : w.handle a = some h) :
    some h ∈ w.objects := by
  have hlt := handle_lt_length w a h ha
  unfold World.handle at ha
  rw [List.getD_eq_getElem _ _ hlt] at ha
  rw [← ha]
  exact List.getElem_mem hlt

/-- Every operation keeps the tag of every empty handle at 0. -/
theorem step_null_tag (w w1 : World) (op : Op) (hs : w.step op = some w1)
    (hw : ∀ h, some h ∈ w.objects → h.reference = none → h.type = 0) :
    ∀ h, some h ∈ w1.objects → h.reference = none → h.type = 0 := by
  intro h hmem hnull
  cases op with
  | construct kind r t =>
    simp only [World.step, registryCtor_eq, Option.some.injEq] at hs
    subst hs
    rcases List.mem_append.mp hmem with h1 | h1
    · exact hw h h1 hnull
    · simp only [List.mem_singleton, Option.some.injEq] at h1
      subst h1
      cases hnull
  | defaultConstruct =>
    simp only [World.step, Option.some.injEq] at hs
    subst hs
    rcases List.mem_append.mp hmem with h1 | h1
    · exact hw h h1 hnull
    · simp only [List.mem_singleton, Option.some.injEq] at h1
      subst h1
      rfl
  | copyConstruct p =>
    simp only [World.step] at hs
    cases hp : w.handle p with
    | none => simp [hp] at hs
    | some x =>
      simp only [hp, Option.some.injEq, copyCtor_eq] at hs
      subst hs
      rcases List.mem_append.mp hmem with h1 | h1
      · exact hw h h1 hnull
      · simp only [List.mem_singleton, Option.some.injEq] at h1
        subst h1
        exact hw h (handle_mem w p h hp) hnull
  | moveConstruct kind p =>
    simp only [World.step] at hs
    cases hp : w.handle p with
    | none => simp [hp] at hs
    | some x =>
      simp only [hp, Option.some.injEq, classMoveCtor_eq] at hs
      subst hs
      by_cases hk : basedOnReference kind = true
      · simp only [if_pos hk] at hmem
        rcases List.mem_append.mp hmem with h1 | h1
        · rcases List.mem_or_eq_of_mem_set h1 with h2 | h2
          · exact hw h h2 hnull
          · simp only [Option.some.injEq] at h2
            subst h2
            rfl
        · simp only [List.mem_singleton, Option.some.injEq] at h1
          subst h1
          exact hw _ (handle_mem w p _ hp) hnull
      · simp only [if_neg hk] at hmem
        simp only [set_getD_self _ _ _ hp] at hmem
        rcases List.mem_append.mp hmem with h1 | h1
        · exact hw h h1 hnull
        · simp only [List.mem_singleton, Option.some.injEq] at h1
          subst h1
          exact hw _ (handle_mem w p _ hp) hnull
  | copyAssign a b =>
    simp only [World.step] at hs
    cases ha : w.handle a with
    | none => simp [ha] at hs
    | some x =>
      cases hb : w.handle b with
      | none => simp [ha, hb] at hs
      | some y =>
        simp only [ha, hb, Option.some.injEq] at hs
        subst hs
        rcases List.mem_or_eq_of_mem_set hmem with h2 | h2
        · exact hw h h2 hnull
        · simp only [Option.some.injEq] at h2
          by_cases hab : a = b
          · simp only [FactoryWrapper.copyAssign, hab, ne_eq, not_true_eq_false, if_false] at h2
            subst h2
            exact hw _ (handle_mem w a _ ha) hnull
          · rw [copyAssign_eq _ _ _ _ _ hab] at h2
            subst h2
            exact hw _ (handle_mem w b _ hb) hnull
  | moveAssign a b =>
    simp only [World.step] at hs
    cases ha : w.handle a with
    | none => simp [ha] at hs
    | some x =>
      cases hb : w.handle b with
      | none => simp [ha, hb] at hs
      | some y =>
        simp only [ha, hb, Option.some.injEq] at hs
        subst hs
        by_cases hab : a = b
        · simp only [FactoryWrapper.moveAssign, hab, ne_eq, not_true_eq_false, if_false] at hmem
          rcases List.mem_or_eq_of_mem_set hmem with h2 | h2
          · rcases List.mem_or_eq_of_mem_set h2 with h3 | h3
            · exact hw h h3 hnull
            · simp only [Option.some.injEq] at h3
              subst h3
              exact hw _ (handle_mem w b _ hb) hnull
          · simp only [Option.some.injEq] at h2
            subst h2
            exact hw _ (handle_mem w a _ ha) hnull
        · rw [moveAssign_eq _ _ _ _ _ hab] at hmem
          rcases List.mem_or_eq_of_mem_set hmem with h2 | h2
          · rcases List.mem_or_eq_of_mem_set h2 with h3 | h3
            · exact hw h h3 hnull
            · simp only [Option.some.injEq] at h3
              subst h3
              rfl
          · simp only [Option.some.injEq] at h2
            subst h2
            exact hw _ (handle_mem w b _ hb) hnull
  | destroy a =>
    simp only [World.step] at hs
    cases ha : w.handle a with
    | none => simp [ha] at hs
    | some x =>
      simp only [ha, Option.some.injEq] at hs
      subst hs
      rcases List.mem_or_eq_of_mem_set hmem with h2 | h2
      · exact hw h h2 hnull
      · cases h2

theorem run_null_tag (ops : List Op) (w w1 : World) (hr : w.run ops = some w1)
    (hw : ∀ h, some h ∈ w.objects → h.reference = none → h.type = 0) :
    ∀ h, some h ∈ w1.objects → h.reference = none → h.type = 0 := by
  induction ops generalizing w with
  | nil =>
    simp only [World.run, Option.some.injEq] at hr
    subst hr
    exact hw
  | cons op ops ih =>
    simp only [World.run] at hr
    cases hs : w.step op with
    | none => simp [hs] at hr
    | some w2 =>
      simp only [hs] at hr
      exact ih w2 hr (step_null_tag w w2 op hs hw)

/-- C24: every live handle reached from the empty world by default
construction, registry construction on an entity, copy or move construction,
copy or move assignment (and destruction of other handles) has the tag 0 when
its entity pointer is null; such an empty handle converts to false, fails
`validate<T>()` for every class `T`, and `vaultcast<T>` on it returns an error
for every `T`. -/
theorem C24_empty_handle_has_tag_zero (ops : List Op) (w : World)
    (hrun : World.empty.run ops = some w) (a : Nat) (h : FactoryWrapper)
    (ha : w.handle a = some h) (hnull : h.reference = none) :
    h.type = 0 ∧ h.toBool = false ∧ (∀ T : Derived, h.validate T 0 = false) ∧
      (∀ (T : Derived) (s : Sessions),
        (vaultcast T s h).2 = Expected.exception { message := "vaultcast failed" }) := by
  have ht : h.type = 0 :=
    run_null_tag ops World.empty w hrun (fun x hx => absurd hx (List.not_mem_nil _)) h
      (handle_mem w a h ha) hnull
  have hv : ∀ T : Derived, h.validate T 0 = false := by
    intro T
    simp [FactoryWrapper.validate, ht]
  refine ⟨ht, by simp [FactoryWrapper.toBool, hnull], hv, ?_⟩
  intro T s
  rw [vaultcast_eq]
  simp [hv T]

/-- The handle at address 3 of `sampleFinal` is empty. -/
theorem C24_empty_handle_has_tag_zero_witness :
    (World.empty.run sampleOps = some sampleFinal ∧
      sampleFinal.handle 3 = some { reference := none, type := 0 } ∧
      (FactoryWrapper.mk none 0).reference = none) ∧
    ((FactoryWrapper.mk none 0).type = 0 ∧ (FactoryWrapper.mk none 0).toBool = false ∧
      (∀ T : Derived, (FactoryWrapper.mk none 0).validate T 0 = false) ∧
      (∀ (T : Derived) (s : Sessions),
        (vaultcast T s (FactoryWrapper.mk none 0)).2
          = Expected.exception { message := "vaultcast failed" })) :=
  ⟨⟨sample_run, rfl, rfl⟩,
    C24_empty_handle_has_tag_zero sampleOps sampleFinal sample_run 3 { reference := none, type := 0 }
      rfl rfl⟩

/-- C25: `vaultcast<T>(h)` reads `h` through a reference to const: the local
copy it makes equals `h` and the handle it returns on success is `h`
unchanged.  Its net effect on the counters: when the cast succeeds the counter
of the entity of `h` is one higher, when it fails no counter has changed (the
session of the local copy has been ended); the counter of every other entity
is unchanged in both cases. -/
theorem C25_vaultcast_counter_effect (T : Derived) (s : Sessions) (h : FactoryWrapper) :
    (T.copyCtor s h).2 = h ∧
    (∀ e, (vaultcast T s h).1 e
      = s e + (if h.validate T 0 = true ∧ h.reference = some e then 1 else 0)) ∧
    (h.validate T 0 = true → (vaultcast T s h).2 = Expected.value h) ∧
    (h.validate T 0 = false →
      (vaultcast T s h).1 = s ∧
      (vaultcast T s h).2 = Expected.exception { message := "vaultcast failed" }) := by
  rw [vaultcast_eq, derived_copyCtor_eq]
  by_cases hv : h.validate T 0 = true
  · rw [if_pos hv]
    refine ⟨rfl, ?_, fun _ => rfl, fun hf => ?_⟩
    · intro e
      by_cases he : h.reference = some e <;> simp [adjust, hv, he]
    · rw [hv] at hf
      cases hf
  · rw [if_neg hv]
    refine ⟨rfl, ?_, fun ht => absurd ht hv, fun _ => ⟨rfl, rfl⟩⟩
    intro e
    simp [hv]

/-- A `Player` handle on entity 5 cast to `Actor` (success) and to `Item`
(failure), with all counters at 0 before. -/
theorem C25_vaultcast_counter_effect_witness :
    ((FactoryWrapper.mk (some 5) ID_PLAYER).validate Derived.Actor 0 = true ∧
      (FactoryWrapper.mk (some 5) ID_PLAYER).validate Derived.Item 0 = false) ∧
    (vaultcast Derived.Actor (fun _ => 0) { reference := some 5, type := ID_PLAYER }).2
      = Expected.value { reference := some 5, type := ID_PLAYER } ∧
    (vaultcast Derived.Actor (fun _ => 0) { reference := some 5, type := ID_PLAYER }).1 5
      = 0 + (if (FactoryWrapper.mk (some 5) ID_PLAYER).validate Derived.Actor 0 = true ∧
          (FactoryWrapper.mk (some 5) ID_PLAYER).reference = some 5 then 1 else 0) ∧
    ((vaultcast Derived.Item (fun _ => 0) { reference := some 5, type := ID_PLAYER }).1
        = (fun _ => 0) ∧
      (vaultcast Derived.Item (fun _ => 0) { reference := some 5, type := ID_PLAYER }).2
        = Expected.exception { message := "vaultcast failed" }) :=
  ⟨⟨by decide, by decide⟩,
    (C25_vaultcast_counter_effect Derived.Actor (fun _ => 0)
      { reference := some 5, type := ID_PLAYER }).2.2.1 (by decide),
    (C25_vaultcast_counter_effect Derived.Actor (fun _ => 0)
      { reference := some 5, type := ID_PLAYER }).2.1 5,
    (C25_vaultcast_counter_effect Derived.Item (fun _ => 0)
      { reference := some 5, type := ID_PLAYER }).2.2.2 (by decide)⟩

/-- C26: for every handle `h`, every class `T` and every argument `a` that is
not zero, `validate<T>(a)` is true exactly when `a AND token` is not zero, and
has the same value on every other handle `h1`; the call with the argument 0,
which is the default call `validate<T>()`, tests the recorded tag of `h`. -/
theorem C26_validate_with_argument (h h1 : FactoryWrapper) (T : Derived) (a : Nat)
    (ha : a ≠ 0) :
    h.validate T a = decide (a &&& T.token ≠ 0) ∧
    h.validate T a = h1.validate T a ∧
    h.validate T 0 = decide (h.type &&& T.token ≠ 0) := by
  simp [FactoryWrapper.validate, ha]

/-- On a `Player` handle, `validate<Item>(ID_ITEM)` is true although
`validate<Item>()` is false. -/
theorem C26_validate_with_argument_witness :
    ID_ITEM ≠ 0 ∧
    ((FactoryWrapper.mk (some 5) ID_PLAYER).validate Derived.Item ID_ITEM
        = decide (ID_ITEM &&& Derived.token Derived.Item ≠ 0) ∧
      (FactoryWrapper.mk (some 5) ID_PLAYER).validate Derived.Item ID_ITEM
        = FactoryWrapper.defaultCtor.validate Derived.Item ID_ITEM ∧
      (FactoryWrapper.mk (some 5) ID_PLAYER).validate Derived.Item 0
        = decide ((FactoryWrapper.mk (some 5) ID_PLAYER).type &&& Derived.token Derived.Item ≠ 0)) ∧
    (FactoryWrapper.mk (some 5) ID_PLAYER).validate Derived.Item ID_ITEM = true ∧
    (FactoryWrapper.mk (some 5) ID_PLAYER).validate Derived.Item 0 = false :=
  ⟨by decide,
    C26_validate_with_argument { reference := some 5, type := ID_PLAYER }
      FactoryWrapper.defaultCtor Derived.Item ID_ITEM (by decide),
    by decide, by decide⟩

/-- C27: `a == b` holds if and only if the entity pointer of `a` is not null
and equals the entity pointer of `b`, whatever the two tags are.  So `==` is
symmetric, an empty handle is equal to no handle, itself included, a bound
handle is equal to itself, and `a != b` is the negation of `a == b`. -/
theorem C27_handle_equality (a b : FactoryWrapper) :
    (a.operatorEq b = true ↔ a.reference ≠ none ∧ a.reference = b.reference) ∧
    (∀ t1 t2 : Nat,
      (FactoryWrapper.mk a.reference t1).operatorEq (FactoryWrapper.mk b.reference t2)
        = a.operatorEq b) ∧
    a.operatorEq b = b.operatorEq a ∧
    (a.reference = none →
      a.operatorEq b = false ∧ b.operatorEq a = false ∧ a.operatorEq a = false) ∧
    (a.reference ≠ none → a.operatorEq a = true) ∧
    a.operatorNe b = !(a.operatorEq b) := by
  obtain ⟨ar, at1⟩ := a
  obtain ⟨br, bt⟩ := b
  cases ar <;> cases br <;> simp [FactoryWrapper.operatorEq, FactoryWrapper.operatorNe, eq_comm]

/-- Two handles on entity 5 with different tags are equal; the empty handle is
not equal to itself. -/
theorem C27_handle_equality_witness :
    (FactoryWrapper.mk (some 5) ID_PLAYER).operatorEq (FactoryWrapper.mk (some 5) ID_ACTOR)
      = true ∧
    FactoryWrapper.defaultCtor.operatorEq FactoryWrapper.defaultCtor = false ∧
    (FactoryWrapper.mk (some 5) ID_PLAYER).operatorEq (FactoryWrapper.mk (some 5) ID_PLAYER)
      = true :=
  ⟨(C27_handle_equality { reference := some 5, type := ID_PLAYER }
      { reference := some 5, type := ID_ACTOR }).1.mpr ⟨by decide, rfl⟩,
    ((C27_handle_equality FactoryWrapper.defaultCtor FactoryWrapper.defaultCtor).2.2.2.1
      rfl).2.2,
    (C27_handle_equality { reference := some 5, type := ID_PLAYER }
      { reference := some 5, type := ID_PLAYER }).2.2.2.2.1 (by decide)⟩

/-- C28: each of the fourteen enumerators of `vaultmp::Type` in
`vaultscript.h` has the value of the constant of the same name in
`GameFactory.h`. -/
theorem C28_script_type_agrees_with_registry_constants :
    vaultmp.Type.ID_REFERENCE = ID_REFERENCE ∧ vaultmp.Type.ID_OBJECT = ID_OBJECT ∧
    vaultmp.Type.ID_ITEM = ID_ITEM ∧ vaultmp.Type.ID_CONTAINER = ID_CONTAINER ∧
    vaultmp.Type.ID_ACTOR = ID_ACTOR ∧ vaultmp.Type.ID_PLAYER = ID_PLAYER ∧
    vaultmp.Type.ID_WINDOW = ID_WINDOW ∧ vaultmp.Type.ID_BUTTON = ID_BUTTON ∧
    vaultmp.Type.ID_TEXT = ID_TEXT ∧ vaultmp.Type.ID_EDIT = ID_EDIT ∧
    vaultmp.Type.ALL_OBJECTS = ALL_OBJECTS ∧ vaultmp.Type.ALL_CONTAINERS = ALL_CONTAINERS ∧
    vaultmp.Type.ALL_ACTORS = ALL_ACTORS ∧ vaultmp.Type.ALL_WINDOWS = ALL_WINDOWS ∧
    vaultmp.Type.ID_EDIT = 0x200 ∧ vaultmp.Type.ALL_OBJECTS = 0x3E ∧
    vaultmp.Type.ALL_CONTAINERS = 0x38 ∧ vaultmp.Type.ALL_ACTORS = 0x30 ∧
    vaultmp.Type.ALL_WINDOWS = 0x3C0 := by
  decide


/-! ## The claims on the script interface -/

/-- The members `GetParentWindow` and `GetWindowChildList` of `Window` call the
free function of the same name with the id of the wrapper. -/
theorem window_members_delegating {σ : Type} (api : ScriptAPI σ) (w : vaultmp.Window) (s : σ) :
    vaultmp.Window.GetParentWindow api w s = vaultmp.GetParentWindow api w.id s ∧
    vaultmp.Window.GetWindowChildList api w s = vaultmp.GetWindowChildList api w.id s :=
  ⟨rfl, rfl⟩

/-- C29 (the code at the failing input): for the window 1 of `sampleAPI`, whose
parent is 2, whose root is 3 and which has 4 children, the member
`GetWindowRoot()` returns 2, the value of `GetParentWindow(1)`, and not
`GetWindowRoot(1) = 3`; the member `GetWindowChildCount()` returns 2 as well,
and not `GetWindowChildCount(1) = 4`. -/
theorem C29_window_root_and_child_count_return_parent :
    (vaultmp.Window.ctor sampleAPI 1 0).1 = { id := 1, type := vaultmp.Type.ID_WINDOW } ∧
    (vaultmp.GetParentWindow sampleAPI 1 0).1 = 2 ∧
    (vaultmp.GetWindowRoot sampleAPI 1 0).1 = 3 ∧
    (vaultmp.GetWindowChildCount sampleAPI 1 0).1 = 4 ∧
    (vaultmp.Window.GetWindowRoot sampleAPI { id := 1, type := vaultmp.Type.ID_WINDOW } 0).1
      = 2 ∧
    (vaultmp.Window.GetWindowChildCount sampleAPI
      { id := 1, type := vaultmp.Type.ID_WINDOW } 0).1 = 2 ∧
    (vaultmp.Window.GetParentWindow sampleAPI { id := 1, type := vaultmp.Type.ID_WINDOW } 0).1
      = 2 ∧
    (vaultmp.Window.GetWindowChildList sampleAPI
      { id := 1, type := vaultmp.Type.ID_WINDOW } 0).1 = [5, 6, 7, 8] := by
  decide

/-- C30: for each wrapper class `K` and every id, the object `K(id)` has
`GetID() = id` when the predicate `IsK(id)` returned `True` and `GetID() = 0`
otherwise, `IsValid()` is `True` exactly when `GetID()` is not 0, and
`GetType()` is `Type::ID_K`.  After `DestroyObject()` or `DestroyWindow()`, in
whatever state it is called and whatever it reports, the id of the wrapper is 0
and `IsValid()` is `False`. -/
theorem C30_script_wrapper_construction {σ : Type} (api : ScriptAPI σ) (K : Derived)
    (id : Nat) (s : σ) :
    (vaultmp.construct api K id s).1.GetID = (if (api.Is K id s).1 = true then id else 0) ∧
    (vaultmp.construct api K id s).1.IsValid
      = decide ((vaultmp.construct api K id s).1.GetID ≠ 0) ∧
    (vaultmp.construct api K id s).1.GetType = vaultmp.Type.ofClass K ∧
    (∀ s1 : σ,
      ((vaultmp.construct api K id s).1.Destroy api s1).2.1.GetID = 0 ∧
      ((vaultmp.construct api K id s).1.Destroy api s1).2.1.IsValid = false) := by
  cases K <;>
    simp [vaultmp.construct, ScriptAPI.Is, vaultmp.Type.ofClass, vaultmp.Wrapper.GetID,
      vaultmp.Wrapper.IsValid, vaultmp.Wrapper.GetType, vaultmp.Wrapper.Destroy,
      vaultmp.Object.ctor, vaultmp.Item.ctor, vaultmp.Container.ctor, vaultmp.Actor.ctor,
      vaultmp.Player.ctor, vaultmp.Object.ctorProtected, vaultmp.Item.ctorProtected,
      vaultmp.Container.ctorProtected, vaultmp.Actor.ctorProtected, vaultmp.Reference.ctor,
      vaultmp.Reference.GetID, vaultmp.Reference.IsValid, vaultmp.Reference.GetType,
      vaultmp.Object.DestroyObject, vaultmp.Window.ctor, vaultmp.Button.ctor,
      vaultmp.Text.ctor, vaultmp.Edit.ctor, vaultmp.Window.ctorProtected,
      vaultmp.Window.GetID, vaultmp.Window.IsValid, vaultmp.Window.GetType,
      vaultmp.Window.DestroyWindow]


/-! ## The strict destroy on the registry -/

theorem lookup_none_of_absent (l : List (Nat × Nat)) (i : Nat) (h : ∀ p ∈ l, p.1 ≠ i) :
    l.lookup i = none := by
  rw [List.lookup_eq_none_iff]
  intro p hp
  simp only [bne_iff_ne, ne_eq]
  exact fun he => h p hp he.symm

theorem lookup_some_mem (l : List (Nat × Nat)) (i t : Nat) (h : l.lookup i = some t) :
    (i, t) ∈ l := by
  obtain ⟨l1, l2, rfl, _⟩ := List.lookup_eq_some_iff.mp h
  simp

theorem filter_absent (l : List (Nat × Nat)) (i : Nat) :
    ∀ p ∈ l.filter (fun p => p.1 != i), p.1 ≠ i := by
  intro p hp
  have := (List.mem_filter.mp hp).2
  simpa using this

/-- An identity that is in no index and has been issued stays so under every
call. -/
theorem registry_step_absent (reg : Registry) (op : RegistryOp) (i : Nat)
    (habs : ∀ p ∈ reg.instances, p.1 ≠ i) (hlt : i < reg.next) :
    (∀ p ∈ (reg.step op).instances, p.1 ≠ i) ∧ i < (reg.step op).next := by
  cases op with
  | create type =>
    simp only [Registry.step, Registry.CreateInstance]
    split
    · refine ⟨?_, Nat.lt_succ_of_lt hlt⟩
      intro p hp
      rcases List.mem_append.mp hp with h1 | h1
      · exact habs p h1
      · simp only [List.mem_singleton] at h1
        subst h1
        exact fun he => absurd (he ▸ hlt) (Nat.lt_irrefl _)
    · exact ⟨habs, hlt⟩
  | getObject id =>
    simp only [Registry.step, Registry.GetObject]
    split <;> exact ⟨habs, hlt⟩
  | release reference => exact ⟨habs, hlt⟩
  | destroy id =>
    simp only [Registry.step, Registry.DestroyInstance]
    split
    · exact ⟨fun p hp => habs p (List.mem_filter.mp hp).1, hlt⟩
    · exact ⟨habs, hlt⟩
  | destroyStrict reference =>
    simp only [Registry.step, Registry.DestroyInstanceStrict]
    split
    · exact ⟨habs, hlt⟩
    · split
      · exact ⟨habs, hlt⟩
      · split
        · exact ⟨fun p hp => habs p (List.mem_filter.mp hp).1, hlt⟩
        · exact ⟨habs, hlt⟩

theorem registry_run_absent (ops : List RegistryOp) (reg : Registry) (i : Nat)
    (habs : ∀ p ∈ reg.instances, p.1 ≠ i) (hlt : i < reg.next) :
    (reg.run ops).GetObject i = (reg.run ops, Except.error RegistryError.notFound) := by
  induction ops generalizing reg with
  | nil =>
    simp only [Registry.run, Registry.GetObject, lookup_none_of_absent _ _ habs]
  | cons op ops ih =>
    obtain ⟨h1, h2⟩ := registry_step_absent reg op i habs hlt
    exact ih (reg.step op) h1 h2

/-- C21: for a handle on the entity `id`, which is in the indices, the strict
destroy succeeds exactly when the in-use counter of the entity is one at the
call.  In that case the counter is zero afterwards, the identity is retired,
the handle is left empty, and after every sequence of later calls a lookup of
the identity reports not found.  With a counter other than one, for instance
with two outstanding handles, the call fails with precondition-violated and
the registry, its indices and counters included, and the handle are
unchanged. -/
theorem C21_strict_destroy_requires_sole_handle (reg : Registry) (h : FactoryWrapper)
    (id type : Nat) (hwf : reg.wf = true) (hh : h.reference = some id)
    (hlive : reg.instances.lookup id = some type) :
    ((reg.DestroyInstanceStrict h).2.2 = Except.ok id ↔ reg.sessions id = 1) ∧
    (reg.sessions id = 1 →
      (reg.DestroyInstanceStrict h).1.sessions id = 0 ∧
      id ∈ (reg.DestroyInstanceStrict h).1.delrefs ∧
      (reg.DestroyInstanceStrict h).2.1 = FactoryWrapper.defaultCtor ∧
      ∀ ops : List RegistryOp,
        (((reg.DestroyInstanceStrict h).1.run ops).GetObject id).2
          = Except.error RegistryError.notFound) ∧
    (reg.sessions id ≠ 1 →
      reg.DestroyInstanceStrict h = (reg, h, Except.error RegistryError.preconditionViolated)) := by
  have hlt : id < reg.next := by
    have hm := lookup_some_mem _ _ _ hlive
    have := List.all_eq_true.mp hwf _ hm
    simpa using this
  by_cases hc : reg.sessions id = 1
  · have hd : reg.DestroyInstanceStrict h
        = ({ instances := reg.instances.filter (fun p => p.1 != id),
             sessions := EndSession reg.sessions id,
             delrefs := id :: reg.delrefs, next := reg.next },
            FactoryWrapper.defaultCtor, Except.ok id) := by
      simp only [Registry.DestroyInstanceStrict, hh, hlive, hc, if_true]
    rw [hd]
    refine ⟨⟨fun _ => hc, fun _ => rfl⟩, fun _ => ⟨?_, ?_, rfl, ?_⟩, fun hne => absurd hc hne⟩
    · simp [EndSession, hc]
    · simp
    · intro ops
      have hr := registry_run_absent ops
        { instances := reg.instances.filter (fun p => p.1 != id),
          sessions := EndSession reg.sessions id,
          delrefs := id :: reg.delrefs, next := reg.next } id (filter_absent _ _) hlt
      exact congrArg Prod.snd hr
  · have hd : reg.DestroyInstanceStrict h
        = (reg, h, Except.error RegistryError.preconditionViolated) := by
      simp only [Registry.DestroyInstanceStrict, hh, hlive, hc, if_false]
    rw [hd]
    refine ⟨⟨fun he => ?_, fun h1 => absurd h1 hc⟩, fun h1 => absurd h1 hc, fun _ => rfl⟩
    cases he

/-- In `sampleRegistry` the `Player` entity 0 has one outstanding handle: the
strict destroy succeeds; after a second lookup it fails. -/
theorem C21_strict_destroy_requires_sole_handle_witness :
    (sampleRegistry.wf = true ∧ (FactoryWrapper.mk (some 0) ID_PLAYER).reference = some 0 ∧
      sampleRegistry.instances.lookup 0 = some ID_PLAYER ∧ sampleRegistry.sessions 0 = 1) ∧
    (sampleRegistry.DestroyInstanceStrict { reference := some 0, type := ID_PLAYER }).2.2
      = Except.ok 0 ∧
    ((sampleRegistry.DestroyInstanceStrict
      { reference := some 0, type := ID_PLAYER }).1.GetObject 0).2
      = Except.error RegistryError.notFound ∧
    ((sampleRegistry.GetObject 0).1.DestroyInstanceStrict
      { reference := some 0, type := ID_PLAYER }).2.2
      = Except.error RegistryError.preconditionViolated :=
  ⟨⟨rfl, rfl, rfl, rfl⟩,
    (C21_strict_destroy_requires_sole_handle sampleRegistry
      { reference := some 0, type := ID_PLAYER } 0 ID_PLAYER rfl rfl rfl).1.mpr rfl,
    ((C21_strict_destroy_requires_sole_handle sampleRegistry
      { reference := some 0, type := ID_PLAYER } 0 ID_PLAYER rfl rfl rfl).2.1 rfl).2.2.2 [],
    by
      rw [(C21_strict_destroy_requires_sole_handle (sampleRegistry.GetObject 0).1
        { reference := some 0, type := ID_PLAYER } 0 ID_PLAYER rfl rfl rfl).2.2 (by decide)]⟩

end Vaultmp
